import Mathlib

/-!
Verification development for the hyper-elastic-plastic material model of
`src/v2/src/lgr_hyper_ep.hpp` (namespace `lgr::HyperEPDetails`).

The C++ code is embedded shallowly over exact rationals.  Machine doubles
become `ℚ`; the transcendental library functions (`std::sqrt`, `std::pow`,
`std::exp`, `std::log`) and the dense-eigenvalue routine `Omega_h::sqrt_spd`
are not part of the repository, so they enter the embedding as an explicit
record of functions (`NumOps`).  All control flow, all polynomial/rational
arithmetic and every literal constant are translated directly from the
source.  3x3 tensors (`Omega_h::Matrix<3,3>`) are embedded as an explicit
record of nine rationals with the textbook formulas for the small fixed-size
operations (`transpose`, `trace`, `deviator`, determinant, adjugate-based
inverse, Frobenius norm) that `Omega_h` supplies to the model.
-/

namespace HyperEP

/-- `lgr::HyperEPDetails::ErrorCode` (lgr_hyper_ep.hpp lines 27-35). -/
inductive ErrorCode where
  | NOT_SET
  | SUCCESS
  | LINEAR_ELASTIC_FAILURE
  | HYPERELASTIC_FAILURE
  | RADIAL_RETURN_FAILURE
  | ELASTIC_DEFORMATION_UPDATE_FAILURE
  | MODEL_EVAL_FAILURE
deriving DecidableEq

/-- `lgr::HyperEPDetails::Elastic` (lines 37-40). -/
inductive Elastic where
  | LINEAR_ELASTIC
  | NEO_HOOKEAN
deriving DecidableEq

/-- `lgr::HyperEPDetails::Hardening` (lines 42-48). -/
inductive Hardening where
  | NONE
  | LINEAR_ISOTROPIC
  | POWER_LAW
  | ZERILLI_ARMSTRONG
  | JOHNSON_COOK
deriving DecidableEq

/-- `lgr::HyperEPDetails::RateDependence` (lines 50-54). -/
inductive RateDependence where
  | NONE
  | ZERILLI_ARMSTRONG
  | JOHNSON_COOK
deriving DecidableEq

/-- `lgr::HyperEPDetails::StateFlag` (lines 56-62). -/
inductive StateFlag where
  | NONE
  | TRIAL
  | ELASTIC
  | PLASTIC
  | REMAPPED
deriving DecidableEq

/-- A dense 3x3 tensor of exact rationals, embedding `Matrix<3,3>` (`tensor_type`). -/
structure M3 where
  a00 : ℚ
  a01 : ℚ
  a02 : ℚ
  a10 : ℚ
  a11 : ℚ
  a12 : ℚ
  a20 : ℚ
  a21 : ℚ
  a22 : ℚ
deriving DecidableEq

/-- The zero tensor. -/
def M3.zero : M3 := ⟨0, 0, 0, 0, 0, 0, 0, 0, 0⟩

/-- `identity_matrix<3,3>()`. -/
def M3.I : M3 := ⟨1, 0, 0, 0, 1, 0, 0, 0, 1⟩

/-- Componentwise sum. -/
def M3.add (A B : M3) : M3 :=
  ⟨A.a00 + B.a00, A.a01 + B.a01, A.a02 + B.a02,
   A.a10 + B.a10, A.a11 + B.a11, A.a12 + B.a12,
   A.a20 + B.a20, A.a21 + B.a21, A.a22 + B.a22⟩

/-- Componentwise difference. -/
def M3.sub (A B : M3) : M3 :=
  ⟨A.a00 - B.a00, A.a01 - B.a01, A.a02 - B.a02,
   A.a10 - B.a10, A.a11 - B.a11, A.a12 - B.a12,
   A.a20 - B.a20, A.a21 - B.a21, A.a22 - B.a22⟩

/-- Scalar multiple. -/
def M3.smul (c : ℚ) (A : M3) : M3 :=
  ⟨c * A.a00, c * A.a01, c * A.a02,
   c * A.a10, c * A.a11, c * A.a12,
   c * A.a20, c * A.a21, c * A.a22⟩

/-- Matrix product. -/
def M3.mul (A B : M3) : M3 :=
  ⟨A.a00 * B.a00 + A.a01 * B.a10 + A.a02 * B.a20,
   A.a00 * B.a01 + A.a01 * B.a11 + A.a02 * B.a21,
   A.a00 * B.a02 + A.a01 * B.a12 + A.a02 * B.a22,
   A.a10 * B.a00 + A.a11 * B.a10 + A.a12 * B.a20,
   A.a10 * B.a01 + A.a11 * B.a11 + A.a12 * B.a21,
   A.a10 * B.a02 + A.a11 * B.a12 + A.a12 * B.a22,
   A.a20 * B.a00 + A.a21 * B.a10 + A.a22 * B.a20,
   A.a20 * B.a01 + A.a21 * B.a11 + A.a22 * B.a21,
   A.a20 * B.a02 + A.a21 * B.a12 + A.a22 * B.a22⟩

/-- `Omega_h::transpose`. -/
def M3.transpose (A : M3) : M3 :=
  ⟨A.a00, A.a10, A.a20, A.a01, A.a11, A.a21, A.a02, A.a12, A.a22⟩

/-- `Omega_h::trace`. -/
def M3.trace (A : M3) : ℚ := A.a00 + A.a11 + A.a22

/-- `Omega_h::deviator`: `A - (tr A / 3) I`. -/
def M3.deviator (A : M3) : M3 := M3.sub A (M3.smul (A.trace / 3) M3.I)

/-- Squared Frobenius norm (the square of `Omega_h::norm`). -/
def M3.normSq (A : M3) : ℚ :=
  A.a00 ^ 2 + A.a01 ^ 2 + A.a02 ^ 2 +
  A.a10 ^ 2 + A.a11 ^ 2 + A.a12 ^ 2 +
  A.a20 ^ 2 + A.a21 ^ 2 + A.a22 ^ 2

/-- `Omega_h::determinant` by cofactor expansion. -/
def M3.det (A : M3) : ℚ :=
  A.a00 * (A.a11 * A.a22 - A.a12 * A.a21)
  - A.a01 * (A.a10 * A.a22 - A.a12 * A.a20)
  + A.a02 * (A.a10 * A.a21 - A.a11 * A.a20)

/-- Adjugate (transposed cofactor matrix). -/
def M3.adjugate (A : M3) : M3 :=
  ⟨A.a11 * A.a22 - A.a12 * A.a21,
   -(A.a01 * A.a22 - A.a02 * A.a21),
   A.a01 * A.a12 - A.a02 * A.a11,
   -(A.a10 * A.a22 - A.a12 * A.a20),
   A.a00 * A.a22 - A.a02 * A.a20,
   -(A.a00 * A.a12 - A.a02 * A.a10),
   A.a10 * A.a21 - A.a11 * A.a20,
   -(A.a00 * A.a21 - A.a01 * A.a20),
   A.a00 * A.a11 - A.a01 * A.a10⟩

/-- `Omega_h::invert`: `adj(A) / det(A)`. -/
def M3.invert (A : M3) : M3 := M3.smul (1 / A.det) (M3.adjugate A)

/-- Overwrite the three diagonal entries with `p` (the `for(i) T(i,i) = p` idiom). -/
def M3.setDiag (A : M3) (p : ℚ) : M3 := { A with a00 := p, a11 := p, a22 := p }

/-- The numeric library functions that the C++ model calls but that live outside
this repository: `std::sqrt`, `std::pow`, `std::exp`, `std::log` on doubles and
`Omega_h::sqrt_spd` (the SPD matrix square root used at line 579).  The
embedding is parametric in them; theorems state exactly the properties of these
functions they need. -/
structure NumOps where
  sqrt : ℚ → ℚ
  pow : ℚ → ℚ → ℚ
  exp : ℚ → ℚ
  log : ℚ → ℚ
  sqrt_spd : M3 → M3

/-- `std::numeric_limits<double>::max()` = `(2 - 2^-52) * 2^1023`, exactly. -/
def maxDouble : ℚ := ((2 ^ 1024 - 2 ^ 971 : ℕ) : ℚ)

/-- `flow_stress` (lgr_hyper_ep.hpp lines 291-369), translated branch by branch.
`props` is the packed property vector: `props[0] = E`, `props[1] = Nu`,
`props[2..9]` the plastic parameters, as in `read_and_validate_*_params`.
Note: the source has no damage argument and applies no `(1 - dp)` factor. -/
def flow_stress (ops : NumOps) (hardening : Hardening) (rate_dep : RateDependence)
    (props : List ℚ) (temp ep epdot : ℚ) : ℚ :=
  let p : ℕ → ℚ := fun i => props.getD i 0
  let Y0 : ℚ := maxDouble
  let Y :=
    if hardening = Hardening.NONE then
      p 2
    else if hardening = Hardening.LINEAR_ISOTROPIC then
      p 2 + p 3 * ep
    else if hardening = Hardening.POWER_LAW then
      if ep > 0 then p 2 + p 3 * ops.pow ep (p 4) else p 2
    else if hardening = Hardening.ZERILLI_ARMSTRONG then
      let Ya := if ep > 0 then p 2 + p 3 * ops.pow ep (p 4) else p 2
      let c1 := p 5
      let c2 := p 6
      let c3 := p 7
      let alpha := if rate_dep = RateDependence.ZERILLI_ARMSTRONG then
          c3 - p 8 * ops.log epdot
        else c3
      Ya + (c1 + c2 * ops.sqrt ep) * ops.exp (-alpha * temp)
    else if hardening = Hardening.JOHNSON_COOK then
      let ajo := p 2
      let bjo := p 3
      let njo := p 4
      let temp_ref := p 5
      let temp_melt := p 6
      let mjo := p 7
      let Ya := ajo
      let Yb := if bjo > 0 then (if |njo| > 0 then Ya + bjo * ops.pow ep njo else Ya + bjo) else Ya
      if |temp_melt - maxDouble| + 1 ≠ 1 then
        let tstar := if temp > temp_melt then 1 else (temp - temp_ref) / (temp_melt - temp_ref)
        Yb * (if tstar < 0 then 1 - tstar else 1 - ops.pow tstar mjo)
      else Yb
    else Y0
  if rate_dep = RateDependence.JOHNSON_COOK then
    let cjo := p 8
    let epdot0 := p 9
    let rfac := epdot / epdot0
    if cjo > 0 then
      Y * (if rfac < 1 then ops.pow (1 + rfac) cjo else 1 + cjo * ops.log rfac)
    else Y
  else Y

/-- The literal `constexpr double sq23 = 0.8164965809277261` of line 451. -/
def sq23lit : ℚ := 8164965809277261 / 10 ^ 16

/-- `dflow_stress` (lines 371-453), translated branch by branch.  Returns
`sq23lit * deriv`; the source applies no `(1 - dp)` factor. -/
def dflow_stress (ops : NumOps) (hardening : Hardening) (rate_dep : RateDependence)
    (props : List ℚ) (temp ep epdot dtime : ℚ) : ℚ :=
  let p : ℕ → ℚ := fun i => props.getD i 0
  let deriv :=
    if hardening = Hardening.LINEAR_ISOTROPIC then
      p 3
    else if hardening = Hardening.POWER_LAW then
      if ep > 0 then p 3 * p 4 * ops.pow ep (p 4 - 1) else 0
    else if hardening = Hardening.ZERILLI_ARMSTRONG then
      let d0 := if ep > 0 then p 3 * p 4 * ops.pow ep (p 4 - 1) else 0
      let c1 := p 5
      let c2 := p 6
      let c3 := p 7
      let alpha := if rate_dep = RateDependence.ZERILLI_ARMSTRONG then
          c3 - p 8 * ops.log epdot
        else c3
      let d1 := d0 + (1 / 2) * c2 / ops.sqrt (if ep ≤ 0 then 1 / 10 ^ 8 else ep)
          * ops.exp (-alpha * temp)
      if rate_dep = RateDependence.ZERILLI_ARMSTRONG then
        let term1 := c1 * p 8 * temp * ops.exp (-alpha * temp)
        let term2 := c2 * ops.sqrt ep * p 8 * temp * ops.exp (-alpha * temp)
        d1 + (term1 + term2) / (if epdot ≤ 0 then 1 / 10 ^ 8 else epdot) / dtime
      else d1
    else if hardening = Hardening.JOHNSON_COOK then
      let bjo := p 3
      let njo := p 4
      let temp_ref := p 5
      let temp_melt := p 6
      let mjo := p 7
      let temp_contrib :=
        if |temp_melt - maxDouble| + 1 ≠ 1 then
          let tstar := if temp > temp_melt then 1 else (temp - temp_ref) / (temp_melt - temp_ref)
          if tstar < 0 then 1 - tstar else 1 - ops.pow tstar mjo
        else 1
      let d0 := if ep > 0 then bjo * njo * ops.pow ep (njo - 1) * temp_contrib else 0
      if rate_dep = RateDependence.JOHNSON_COOK then
        let ajo := p 2
        let cjo := p 8
        let epdot0 := p 9
        let rfac := epdot / epdot0
        let term1 := if rfac < 1 then ops.pow (1 + rfac) cjo else 1 + cjo * ops.log rfac
        let term2a := (ajo + bjo * ops.pow ep njo) * temp_contrib
        let term2 := if rfac < 1 then term2a * (cjo * ops.pow (1 + rfac) (cjo - 1))
          else term2a * (cjo / rfac)
        d0 * term1 + term2 / dtime
      else d0
    else 0
  sq23lit * deriv

/-- The residual lambda `fun` of `find_bbe` (lines 258-264): `det(BBe) - 1`
as a function of `bzz`, with the symmetrized off-diagonal stresses. -/
def bbeFun (tau : M3) (mu bzz : ℚ) : ℚ :=
  let txx := tau.a00
  let tyy := tau.a11
  let tzz := tau.a22
  let txy := (tau.a01 + tau.a10) / 2
  let txz := (tau.a02 + tau.a20) / 2
  let tyz := (tau.a12 + tau.a21) / 2
  let f2 := (bzz * mu * (-(txy * txy) + (bzz * mu + txx - tzz) * (bzz * mu + tyy - tzz))
      + 2 * txy * txz * tyz + txz * txz * (-(bzz * mu) - tyy + tzz)
      + tyz * tyz * (-(bzz * mu) - txx + tzz)) / (mu * mu * mu)
  f2 - 1

/-- The derivative lambda `dfun` of `find_bbe` (lines 266-272). -/
def bbeDFun (tau : M3) (mu bzz : ℚ) : ℚ :=
  let txx := tau.a00
  let tyy := tau.a11
  let tzz := tau.a22
  let txy := (tau.a01 + tau.a10) / 2
  let txz := (tau.a02 + tau.a20) / 2
  let tyz := (tau.a12 + tau.a21) / 2
  (bzz * mu * (2 * (bzz * mu) + txx + tyy - 2 * tzz)
      - txy * txy - txz * txz - tyz * tyz
      + (bzz * mu + txx - tzz) * (bzz * mu + tyy - tzz)) / (mu * mu)

/-- One Newton update of `bzz` (line 278). -/
def bbeNext (tau : M3) (mu bzz : ℚ) : ℚ := bzz - bbeFun tau mu bzz / bbeDFun tau mu bzz

/-- The Newton iterates of `find_bbe`, starting from the initial guess
`bzz_old = 1` (line 275). -/
def bbeZ (tau : M3) (mu : ℚ) : ℕ → ℚ
  | 0 => 1
  | n + 1 => bbeNext tau mu (bbeZ tau mu n)

/-- The `Be` tensor as written inside the loop of `find_bbe` (lines 274,
279-281): off-diagonal entries from `deviator(tau)/mu`, diagonal rebuilt
from the current `bzz`. -/
def bbeBe (tau : M3) (mu bzz : ℚ) : M3 :=
  let d := M3.smul (1 / mu) (M3.deviator tau)
  { d with a00 := 1 / mu * (mu * bzz + tau.a00 - tau.a22),
           a11 := 1 / mu * (mu * bzz + tau.a11 - tau.a22),
           a22 := bzz }

/-- The iteration loop of `find_bbe` (lines 277-286), as a fuel recursion.
`z` is the current `bzz_old`; the loop writes `Be` from the freshly computed
`bzz_new` before testing `(bzz_new - bzz_old)^2 < tol` with `tol = 1e-12`. -/
def find_bbe_loop (tau : M3) (mu : ℚ) : ℕ → ℚ → ErrorCode × M3
  | 0, z => (ErrorCode.ELASTIC_DEFORMATION_UPDATE_FAILURE, bbeBe tau mu z)
  | fuel + 1, z =>
    let znew := bbeNext tau mu z
    if (znew - z) * (znew - z) < 1 / 10 ^ 12 then (ErrorCode.SUCCESS, bbeBe tau mu znew)
    else find_bbe_loop tau mu fuel znew

/-- `find_bbe` (lines 243-289): `maxit = 25`, initial guess `bzz = 1`. -/
def find_bbe (tau : M3) (mu : ℚ) : ErrorCode × M3 := find_bbe_loop tau mu 25 1

/-- The in/out parameters of `radial_return` (line 472): stress `T`, plastic
deformation gradient `Fp`, equivalent plastic strain `ep`, its rate `epdot`,
and the state flag. -/
structure RRState where
  T : M3
  Fp : M3
  ep : ℚ
  epdot : ℚ
  flag : StateFlag
deriving DecidableEq

/-- The scalar state carried by the plastic Newton loop (lines 510-556):
consistency parameter `gamma` and the accumulated `ep`, `epdot`. -/
structure PlasticSt where
  gamma : ℚ
  ep : ℚ
  epdot : ℚ
deriving DecidableEq

/-- The read-only context of one `radial_return` call. -/
structure RRCtx where
  ops : NumOps
  hardening : Hardening
  rate_dep : RateDependence
  props : List ℚ
  temp : ℚ
  dtime : ℚ

/-- `tol1 = 1e-12` (line 475). -/
def tol1 : ℚ := 1 / 10 ^ 12

/-- `tol2 = std::min(dtime, 1e-6)` (line 476). -/
def RRCtx.tol2 (c : RRCtx) : ℚ := min c.dtime (1 / 10 ^ 6)

/-- `sq2 = sqrt(2.0)` (line 478). -/
def RRCtx.sq2 (c : RRCtx) : ℚ := c.ops.sqrt 2

/-- `sq3 = sqrt(3.0)` (line 479). -/
def RRCtx.sq3 (c : RRCtx) : ℚ := c.ops.sqrt 3

/-- `sq23 = sq2 / sq3` (line 480). -/
def RRCtx.sq23 (c : RRCtx) : ℚ := c.sq2 / c.sq3

/-- `sq32 = 1.0 / sq23` (line 481). -/
def RRCtx.sq32 (c : RRCtx) : ℚ := 1 / c.sq23

/-- `E = props[0]` (line 483). -/
def RRCtx.Emod (c : RRCtx) : ℚ := c.props.getD 0 0

/-- `Nu = props[1]` (line 484). -/
def RRCtx.Nu (c : RRCtx) : ℚ := c.props.getD 1 0

/-- `mu = E / 2 / (1 + Nu)` (line 485). -/
def RRCtx.mu (c : RRCtx) : ℚ := c.Emod / 2 / (1 + c.Nu)

/-- `twomu = 2 * mu` (line 486). -/
def RRCtx.twomu (c : RRCtx) : ℚ := 2 * c.mu

/-- Trial deviator `S0 = deviator(Te)` (line 494). -/
def rrS0 (Te : M3) : M3 := M3.deviator Te

/-- `norm_S0 = norm(S0)` (line 495). -/
def rrNormS0 (ops : NumOps) (Te : M3) : ℚ := ops.sqrt (M3.normSq (rrS0 Te))

/-- The trial yield check `f = norm_S0 / sq2 - Y / sq3` (lines 493-496),
with `Y` the flow stress at the entry state. -/
def rrTrialF (c : RRCtx) (Te : M3) (s : RRState) : ℚ :=
  rrNormS0 c.ops Te / c.sq2
    - flow_stress c.ops c.hardening c.rate_dep c.props c.temp s.ep s.epdot / c.sq3

/-- Flow direction `N = S0 / norm_S0` (line 508). -/
def rrFlowDir (c : RRCtx) (Te : M3) : M3 := M3.smul (1 / rrNormS0 c.ops Te) (rrS0 Te)

/-- Initial loop state: `gamma = epdot * dtime * sq32` (line 487) and the
entry `ep`, `epdot`. -/
def rrStart (c : RRCtx) (s : RRState) : PlasticSt :=
  ⟨s.epdot * c.dtime * c.sq32, s.ep, s.epdot⟩

/-- One iteration of the plastic Newton loop (lines 510-545), returning the
updated state together with the iteration's `f` and `dgamma` (the two
quantities tested for acceptance). -/
def rrIter (c : RRCtx) (S0 N : M3) (nS0 : ℚ) (s : PlasticSt) : PlasticSt × ℚ × ℚ :=
  let Y := flow_stress c.ops c.hardening c.rate_dep c.props c.temp s.ep s.epdot
  let g := nS0 - c.sq23 * Y - c.twomu * s.gamma
  let dydg := dflow_stress c.ops c.hardening c.rate_dep c.props c.temp s.ep s.epdot c.dtime
  let dg := -(2 / 3) * dydg - c.twomu
  let dgamma := -g / dg
  let gamma := s.gamma + dgamma
  let dep := max (c.sq23 * gamma) 0
  let epdot := dep / c.dtime
  let ep := s.ep + dep
  let S := M3.sub S0 (M3.smul (c.twomu * gamma) N)
  let f := c.ops.sqrt (M3.normSq S) / c.sq2 - Y / c.sq3
  (⟨gamma, ep, epdot⟩, f, dgamma)

/-- The plastic loop (lines 510-556) as a fuel recursion over the iteration
counter `i`.  Result component `2` is the source's `conv`: `0` not converged,
`1` converged (`f < tol1` or `|dgamma| < tol2`), `2` weak convergence
(`iter > 24` and `f <= tol1 * 1000`). -/
def rrLoop (c : RRCtx) (S0 N : M3) (nS0 : ℚ) : ℕ → ℕ → PlasticSt → PlasticSt × ℕ
  | 0, _, s => (s, 0)
  | fuel + 1, i, s =>
    let r := rrIter c S0 N nS0 s
    if r.2.1 < tol1 then (r.1, 1)
    else if |r.2.2| < c.tol2 then (r.1, 1)
    else if 24 < i ∧ r.2.1 ≤ tol1 * 1000 then (r.1, 2)
    else rrLoop c S0 N nS0 fuel (i + 1) r.1

/-- The `n`-th iterate of the plastic loop body from a start state. -/
def rrIterN (c : RRCtx) (S0 N : M3) (nS0 : ℚ) (s0 : PlasticSt) : ℕ → PlasticSt
  | 0 => s0
  | n + 1 => (rrIter c S0 N nS0 (rrIterN c S0 N nS0 s0 n)).1

/-- Acceptance of iteration `i`, in the words of the specification: the
iteration's `f < 1e-12`, or its `|dgamma| < min(dtime, 1e-6)`, or (weak
acceptance, only after iteration 24) `f <= 1e-9`. -/
def rrAccepted (c : RRCtx) (S0 N : M3) (nS0 : ℚ) (s0 : PlasticSt) (i : ℕ) : Prop :=
  let r := rrIter c S0 N nS0 (rrIterN c S0 N nS0 s0 i)
  r.2.1 < 1 / 10 ^ 12 ∨ |r.2.2| < min c.dtime (1 / 10 ^ 6) ∨ (24 < i ∧ r.2.1 ≤ 1 / 10 ^ 9)

instance (c : RRCtx) (S0 N : M3) (nS0 : ℚ) (s0 : PlasticSt) (i : ℕ) :
    Decidable (rrAccepted c S0 N nS0 s0 i) := by
  unfold rrAccepted
  exact inferInstance

/-- The tail of `radial_return` (lines 569-591): when the flag is not
`ELASTIC`, recover the elastic configuration through `find_bbe`, rebuild
`Fp`, and for a `REMAPPED` point replace the spherical part of `T`. -/
def rrFinish (c : RRCtx) (F : M3) (st : RRState) : ErrorCode × RRState :=
  if st.flag = StateFlag.ELASTIC then (ErrorCode.SUCCESS, st)
  else
    let jac := M3.det F
    let fb := find_bbe st.T c.mu
    if fb.1 ≠ ErrorCode.SUCCESS then (fb.1, st)
    else
      let Be := M3.smul (c.ops.pow jac (2 / 3)) fb.2
      let Ve := c.ops.sqrt_spd Be
      let st1 := { st with Fp := M3.mul (M3.invert Ve) F }
      if st.flag = StateFlag.REMAPPED then
        let p0 := M3.trace st.T
        let D1 := 6 * (1 - 2 * c.Nu) / c.Emod
        let pnew := 2 * jac / D1 * (jac - 1) - p0 / 3
        (ErrorCode.SUCCESS, { st1 with T := M3.setDiag st1.T pnew })
      else (ErrorCode.SUCCESS, st1)

/-- `radial_return` (lines 465-592).  The C++ in/out reference parameters
become the `RRState` component of the result, which is returned on every
path, converged or not, exactly as the mutations the source has performed
when it returns. -/
def radial_return (ops : NumOps) (hardening : Hardening) (rate_dep : RateDependence)
    (props : List ℚ) (Te F : M3) (temp dtime : ℚ) (s : RRState) : ErrorCode × RRState :=
  let c : RRCtx := ⟨ops, hardening, rate_dep, props, temp, dtime⟩
  let flag1 := if s.flag ≠ StateFlag.REMAPPED then StateFlag.TRIAL else s.flag
  let f := rrTrialF c Te s
  if f ≤ tol1 then
    let flag2 := if flag1 ≠ StateFlag.REMAPPED then StateFlag.ELASTIC else flag1
    rrFinish c F { s with T := Te, flag := flag2 }
  else
    let flag2 := if flag1 ≠ StateFlag.REMAPPED then StateFlag.PLASTIC else flag1
    let S0 := rrS0 Te
    let nS0 := rrNormS0 ops Te
    let N := rrFlowDir c Te
    let lp := rrLoop c S0 N nS0 100 0 (rrStart c s)
    let T1 := M3.sub Te (M3.smul (c.twomu * lp.1.gamma) N)
    let st1 : RRState := ⟨T1, s.Fp, lp.1.ep, lp.1.epdot, flag2⟩
    if lp.2 = 0 then (ErrorCode.RADIAL_RETURN_FAILURE, st1)
    else rrFinish c F st1

/-- `linearelasticstress` (lines 594-609); the `jac` argument is unnamed and
unused in the source. -/
def linearelasticstress (props : List ℚ) (Fe : M3) (_jac : ℚ) : ErrorCode × M3 :=
  let K := props.getD 0 0 / (3 * (1 - 2 * props.getD 1 0))
  let G := props.getD 0 0 / 2 / (1 + props.getD 1 0)
  let grad_u := M3.sub Fe M3.I
  let strain := M3.smul (1 / 2) (M3.add grad_u (M3.transpose grad_u))
  let isotropic_strain := M3.smul (strain.trace / 3) M3.I
  let deviatoric_strain := M3.sub strain isotropic_strain
  (ErrorCode.SUCCESS, M3.add (M3.smul (3 * K) isotropic_strain) (M3.smul (2 * G) deviatoric_strain))

/-- `hyperstress` (lines 615-647): compressible Neo-Hookean trial stress. -/
def hyperstress (ops : NumOps) (props : List ℚ) (Fe : M3) (jac : ℚ) : ErrorCode × M3 :=
  let E := props.getD 0 0
  let Nu := props.getD 1 0
  let scale := ops.pow jac (-(1 / 3))
  let Fb := M3.smul scale Fe
  let C10 := E / (4 * (1 + Nu))
  let D1 := 6 * (1 - 2 * Nu) / E
  let EG := 2 * C10 / jac
  let Bb := M3.mul Fb (M3.transpose Fb)
  let TRBb := M3.trace Bb / 3
  let Bdev := M3.sub Bb (M3.smul TRBb M3.I)
  let T0 := M3.smul EG Bdev
  let PR := 2 / D1 * (jac - 1)
  (ErrorCode.SUCCESS, M3.add T0 (M3.smul PR M3.I))

/-- The per-point outputs of `eval` (line 649): stress, wave speed, plastic
deformation gradient, equivalent plastic strain and its rate. -/
structure EvalState where
  T : M3
  wave_speed : ℚ
  Fp : M3
  ep : ℚ
  epdot : ℚ
deriving DecidableEq

/-- The stress-predictor dispatch of `eval` (lines 676-681). -/
def trialPredictor (ops : NumOps) (elastic : Elastic) (props : List ℚ)
    (Fe : M3) (jac : ℚ) : ErrorCode × M3 :=
  match elastic with
  | Elastic.LINEAR_ELASTIC => linearelasticstress props Fe jac
  | Elastic.NEO_HOOKEAN => hyperstress ops props Fe jac

/-- `eval` (lines 649-696), the per-point update driver: wave speed, elastic
trial stress on `Fe = F * Fp^-1`, then `radial_return` with a fresh `TRIAL`
flag.  As in the source, the out-parameters carry whatever has been written
when an error path returns. -/
def evalUpdate (ops : NumOps) (elastic : Elastic) (hardening : Hardening)
    (rate_dep : RateDependence) (props : List ℚ) (rho : ℚ) (F : M3)
    (dtime temp : ℚ) (s : EvalState) : ErrorCode × EvalState :=
  let jac := M3.det F
  let K := props.getD 0 0 / 3 / (1 - 2 * props.getD 1 0)
  let G := props.getD 0 0 / 2 / (1 + props.getD 1 0)
  let ws := ops.sqrt ((K + 4 / 3 * G) / rho)
  let s1 := { s with wave_speed := ws }
  let Fe := M3.mul F (M3.invert s.Fp)
  let pres := trialPredictor ops elastic props Fe jac
  if pres.1 ≠ ErrorCode.SUCCESS then (pres.1, s1)
  else
    let rr := radial_return ops hardening rate_dep props pres.2 F temp dtime
      ⟨s1.T, s1.Fp, s1.ep, s1.epdot, StateFlag.TRIAL⟩
    (rr.1, ⟨rr.2.T, ws, rr.2.Fp, rr.2.ep, rr.2.epdot⟩)

/-- The `rate dependent` sublist of the `plastic` parameter list
(lines 187-211): each `get` with a default is an optional entry. -/
structure RatePL where
  type : Option String
  C : Option ℚ
  EPDOT0 : Option ℚ
  C4 : Option ℚ
deriving DecidableEq

/-- The `plastic` parameter sublist (lines 131-211). -/
structure PlasticPL where
  hardening : Option String
  A : Option ℚ
  B : Option ℚ
  N : Option ℚ
  C1 : Option ℚ
  C2 : Option ℚ
  C3 : Option ℚ
  T0 : Option ℚ
  TM : Option ℚ
  M : Option ℚ
  rate : Option RatePL
deriving DecidableEq

/-- The `elastic` parameter sublist (lines 79-105). -/
structure ElasticPL where
  hyperelastic : Option String
  E : Option ℚ
  Nu : Option ℚ
deriving DecidableEq

/-- The slice of the `Teuchos::ParameterList` that the two validation
routines read. -/
structure ParamList where
  elastic : Option ElasticPL
  plastic : Option PlasticPL
deriving DecidableEq

/-- `read_and_validate_elastic_params` (lines 69-107).  `LGR_THROW_IF`
becomes `Except.error`. -/
def read_and_validate_elastic_params (params : ParamList) :
    Except String (List ℚ × Elastic) :=
  match params.elastic with
  | none => Except.error "elastic submodel must be defined"
  | some pl => do
    let el ← match pl.hyperelastic with
      | some hname =>
        if hname = "neo hookean" then Except.ok Elastic.NEO_HOOKEAN
        else Except.error "hyper elastic model not recognized"
      | none => Except.ok Elastic.LINEAR_ELASTIC
    match pl.E with
    | none => Except.error "youngs modulus E must be defined"
    | some Ev =>
      if Ev ≤ 0 then Except.error "youngs modulus E must be positive"
      else match pl.Nu with
        | none => Except.error "poissons ratio Nu must be defined"
        | some Nuv =>
          if Nuv ≤ -1 ∨ Nuv ≥ (1 / 2 : ℚ) then
            Except.error "invalid value for poissons ratio Nu"
          else Except.ok ([Ev, Nuv], el)

/-- The hardening block of `read_and_validate_plastic_params` (lines 136-185).
Each branch rebuilds the 8-entry property vector with the source's defaults
`[max_double, 0, 1, 298, 0, 0, 0, 0]` and the entries that branch sets. -/
def read_plastic_hardening (pl : PlasticPL) : Except String (List ℚ × Hardening) :=
  match pl.hardening with
  | none => Except.ok ([pl.A.getD maxDouble, 0, 1, 298, 0, 0, 0, 0], Hardening.NONE)
  | some model =>
    if model = "linear isotropic" then
      Except.ok ([pl.A.getD maxDouble, pl.B.getD 0, 1, 298, 0, 0, 0, 0],
        Hardening.LINEAR_ISOTROPIC)
    else if model = "power law" then
      Except.ok ([pl.A.getD maxDouble, pl.B.getD 0, pl.N.getD 1, 298, 0, 0, 0, 0],
        Hardening.POWER_LAW)
    else if model = "zerilli armstrong" then
      Except.ok ([pl.A.getD maxDouble, pl.B.getD 0, pl.N.getD 1,
        pl.C1.getD 0, pl.C2.getD 0, pl.C3.getD 0, 0, 0], Hardening.ZERILLI_ARMSTRONG)
    else if model = "johnson cook" then
      Except.ok ([pl.A.getD maxDouble, pl.B.getD 0, pl.N.getD 1,
        pl.T0.getD 298, pl.TM.getD 0, pl.M.getD 0, 0, 0], Hardening.JOHNSON_COOK)
    else Except.error "unrecognized hardening model"

/-- The rate-dependence block of `read_and_validate_plastic_params`
(lines 187-211), acting on the result of the hardening block. -/
def read_plastic_rate (pl : PlasticPL) (hp : List ℚ × Hardening) :
    Except String (List ℚ × Hardening × RateDependence) :=
  match pl.rate with
  | none => Except.ok (hp.1, hp.2, RateDependence.NONE)
  | some rp =>
    let rtype := rp.type.getD "None"
    if rtype = "johnson cook" then
      if hp.2 ≠ Hardening.JOHNSON_COOK then
        Except.error "johnson cook rate dependent model requires johnson cook hardening"
      else Except.ok ((hp.1.set 6 (rp.C.getD 0)).set 7 (rp.EPDOT0.getD 0),
        hp.2, RateDependence.JOHNSON_COOK)
    else if rtype = "zerilli armstrong" then
      if hp.2 ≠ Hardening.ZERILLI_ARMSTRONG then
        Except.error "zerilli armstrong rate dependent model requires zerilli armstrong hardening"
      else Except.ok (hp.1.set 6 (rp.C4.getD 0), hp.2, RateDependence.ZERILLI_ARMSTRONG)
    else if rtype ≠ "None" then Except.error "unrecognized rate dependent type"
    else Except.ok (hp.1, hp.2, RateDependence.NONE)

/-- `read_and_validate_plastic_params` (lines 109-212). -/
def read_and_validate_plastic_params (params : ParamList) :
    Except String (List ℚ × Hardening × RateDependence) :=
  match params.plastic with
  | none => Except.ok ([maxDouble, 0, 1, 298, 0, 0, 0, 0], Hardening.NONE, RateDependence.NONE)
  | some pl => do
    let hp ← read_plastic_hardening pl
    read_plastic_rate pl hp

/-- Property construction: both validation routines, packing the elastic pair
in front of the plastic vector (the layout `flow_stress` and `radial_return`
index into). -/
def validate_params (params : ParamList) :
    Except String (List ℚ × Elastic × Hardening × RateDependence) := do
  let ev ← read_and_validate_elastic_params params
  let pv ← read_and_validate_plastic_params params
  Except.ok (ev.1 ++ pv.1, ev.2, pv.2.1, pv.2.2)

/-- `true` on `Except.ok`, i.e. "the constructor did not throw". -/
def exceptOk {ε α : Type} : Except ε α → Bool
  | Except.ok _ => true
  | Except.error _ => false

/-- The hardening enumerant a parse of the `hardening` entry would produce
(`NONE` for an absent or unrecognized name). -/
def hardeningOfPL (pl : PlasticPL) : Hardening :=
  match pl.hardening with
  | none => Hardening.NONE
  | some m =>
    if m = "linear isotropic" then Hardening.LINEAR_ISOTROPIC
    else if m = "power law" then Hardening.POWER_LAW
    else if m = "zerilli armstrong" then Hardening.ZERILLI_ARMSTRONG
    else if m = "johnson cook" then Hardening.JOHNSON_COOK
    else Hardening.NONE

/-- The exact acceptance set of the validation code, written declaratively:
the elastic sublist exists with a recognized (or absent) hyperelastic name,
`E` present and not `<= 0`, `Nu` present and not outside `(-1, 0.5)`; if a
plastic sublist exists, any `hardening` name is recognized, and any
rate-dependence type is `johnson cook` (requiring JC hardening),
`zerilli armstrong` (requiring ZA hardening) or `None`. -/
def validOk (params : ParamList) : Prop :=
  match params.elastic with
  | none => False
  | some el =>
    (match el.hyperelastic with
     | none => True
     | some hname => hname = "neo hookean") ∧
    (match el.E with
     | none => False
     | some Ev => ¬(Ev ≤ 0)) ∧
    (match el.Nu with
     | none => False
     | some Nuv => ¬(Nuv ≤ -1 ∨ Nuv ≥ (1 / 2 : ℚ))) ∧
    (match params.plastic with
     | none => True
     | some pl =>
       (match pl.hardening with
        | none => True
        | some model =>
          model = "linear isotropic" ∨ model = "power law" ∨
          model = "zerilli armstrong" ∨ model = "johnson cook") ∧
       (match pl.rate with
        | none => True
        | some rp =>
          (rp.type.getD "None" = "johnson cook" →
            hardeningOfPL pl = Hardening.JOHNSON_COOK) ∧
          (rp.type.getD "None" = "zerilli armstrong" →
            hardeningOfPL pl = Hardening.ZERILLI_ARMSTRONG) ∧
          (rp.type.getD "None" = "johnson cook" ∨
            rp.type.getD "None" = "zerilli armstrong" ∨
            rp.type.getD "None" = "None")))

/-- Modelled from the claim (C9): the set of inputs the claim says property
validation rejects, in terms of the parameter values.  `DC` and
`eps_f_min` are the damage parameters the claim names; the code under
`src/` has no damage parameters at all. -/
def claimedReject (Ev Nuv : ℚ) (hardening : Hardening) (rate_dep : RateDependence)
    (damage_active : Bool) (DC eps_f_min : ℚ) : Prop :=
  ¬(0 < Ev) ∨ ¬(-1 < Nuv ∧ Nuv < 1 / 2)
  ∨ (rate_dep = RateDependence.ZERILLI_ARMSTRONG ∧ hardening ≠ Hardening.ZERILLI_ARMSTRONG)
  ∨ (rate_dep = RateDependence.JOHNSON_COOK ∧ hardening ≠ Hardening.JOHNSON_COOK)
  ∨ (damage_active = true ∧ DC ≤ 0) ∨ eps_f_min < 0

/-- Modelled from the spec (sections 4.1 and 6), without any damage factor:
the uniaxial yield strength `Y` per hardening and rate-dependence model. -/
def specYieldY (ops : NumOps) (hardening : Hardening) (rate_dep : RateDependence)
    (props : List ℚ) (temp ep epdot : ℚ) : ℚ :=
  let A := props.getD 2 0
  let B := props.getD 3 0
  let n := props.getD 4 0
  let base :=
    match hardening with
    | Hardening.NONE => A
    | Hardening.LINEAR_ISOTROPIC => A + B * ep
    | Hardening.POWER_LAW => if 0 < ep then A + B * ops.pow ep n else A
    | Hardening.ZERILLI_ARMSTRONG =>
      let c1 := props.getD 5 0
      let c2 := props.getD 6 0
      let c3 := props.getD 7 0
      let c4 := props.getD 8 0
      let alpha := if rate_dep = RateDependence.ZERILLI_ARMSTRONG
        then c3 - c4 * ops.log epdot else c3
      (if 0 < ep then A + B * ops.pow ep n else A)
        + (c1 + c2 * ops.sqrt ep) * ops.exp (-alpha * temp)
    | Hardening.JOHNSON_COOK =>
      let tref := props.getD 5 0
      let tmelt := props.getD 6 0
      let m := props.getD 7 0
      let base1 := if 0 < B then (if 0 < |n| then A + B * ops.pow ep n else A + B) else A
      if |tmelt - maxDouble| + 1 ≠ 1 then
        let tstar := if temp > tmelt then 1 else (temp - tref) / (tmelt - tref)
        base1 * (if tstar < 0 then 1 - tstar else 1 - ops.pow tstar m)
      else base1
  if rate_dep = RateDependence.JOHNSON_COOK then
    let C := props.getD 8 0
    let epdot0 := props.getD 9 0
    let rfac := epdot / epdot0
    if 0 < C then base * (if rfac < 1 then ops.pow (1 + rfac) C else 1 + C * ops.log rfac)
    else base
  else base

/-- Modelled from the spec (section 4.1), without any damage factor: the
derivative `dY/dep`, including the small-argument guards (substitute `1e-8`
for a non-positive argument of `1/sqrt(ep)` or `1/epdot`). -/
def specYieldDeriv (ops : NumOps) (hardening : Hardening) (rate_dep : RateDependence)
    (props : List ℚ) (temp ep epdot dtime : ℚ) : ℚ :=
  let B := props.getD 3 0
  let n := props.getD 4 0
  match hardening with
  | Hardening.NONE => 0
  | Hardening.LINEAR_ISOTROPIC => B
  | Hardening.POWER_LAW => if 0 < ep then B * n * ops.pow ep (n - 1) else 0
  | Hardening.ZERILLI_ARMSTRONG =>
    let c1 := props.getD 5 0
    let c2 := props.getD 6 0
    let c3 := props.getD 7 0
    let c4 := props.getD 8 0
    let alpha := if rate_dep = RateDependence.ZERILLI_ARMSTRONG
      then c3 - c4 * ops.log epdot else c3
    let d0 := (if 0 < ep then B * n * ops.pow ep (n - 1) else 0)
      + (1 / 2) * c2 / ops.sqrt (if ep ≤ 0 then 1 / 10 ^ 8 else ep) * ops.exp (-alpha * temp)
    if rate_dep = RateDependence.ZERILLI_ARMSTRONG then
      d0 + (c1 * c4 * temp * ops.exp (-alpha * temp)
          + c2 * ops.sqrt ep * c4 * temp * ops.exp (-alpha * temp))
        / (if epdot ≤ 0 then 1 / 10 ^ 8 else epdot) / dtime
    else d0
  | Hardening.JOHNSON_COOK =>
    let A := props.getD 2 0
    let tref := props.getD 5 0
    let tmelt := props.getD 6 0
    let m := props.getD 7 0
    let temp_contrib :=
      if |tmelt - maxDouble| + 1 ≠ 1 then
        let tstar := if tmelt < temp then 1 else (temp - tref) / (tmelt - tref)
        if tstar < 0 then 1 - tstar else 1 - ops.pow tstar m
      else 1
    let d0 := if 0 < ep then B * n * ops.pow ep (n - 1) * temp_contrib else 0
    if rate_dep = RateDependence.JOHNSON_COOK then
      let C := props.getD 8 0
      let epdot0 := props.getD 9 0
      let rfac := epdot / epdot0
      let term1 := if rfac < 1 then ops.pow (1 + rfac) C else 1 + C * ops.log rfac
      let term2a := (A + B * ops.pow ep n) * temp_contrib
      let term2 := if rfac < 1 then term2a * (C * ops.pow (1 + rfac) (C - 1))
        else term2a * (C / rfac)
      d0 * term1 + term2 / dtime
    else d0

/-- Modelled from the claim (C1) and spec section 4.1: the flow stress with the
scalar-damage factor `(1 - dp)` applied on return. -/
def flowStressClaimed (ops : NumOps) (hardening : Hardening) (rate_dep : RateDependence)
    (props : List ℚ) (temp ep epdot dp : ℚ) : ℚ :=
  (1 - dp) * specYieldY ops hardening rate_dep props temp ep epdot

/-- Modelled from the spec (section 4.7, absent from src): the erosion rules the
update driver is claimed to apply when a point is localized.  Precedence
`allow_no_tension`, then `allow_no_shear`, then `set_stress_to_zero`; only
the first true flag applies. -/
def applyErosionSpec (allow_no_tension allow_no_shear set_stress_to_zero : Bool)
    (T : M3) : M3 :=
  let pbar := -(M3.trace T) / 3
  if allow_no_tension then (if pbar < 0 then M3.zero else M3.smul (-pbar) M3.I)
  else if allow_no_shear then M3.smul (-pbar) M3.I
  else if set_stress_to_zero then M3.zero
  else T

/-- Integer Newton iteration for the floor square root (fuel-based structural
recursion, so that it evaluates by kernel reduction). -/
def isqrtAux : ℕ → ℕ → ℕ → ℕ
  | 0, _, g => g
  | fuel + 1, n, g =>
    let g1 := (g + n / g) / 2
    if g1 < g then isqrtAux fuel n g1 else g

/-- Floor integer square root; exact on perfect squares. -/
def isqrt (n : ℕ) : ℕ := if n ≤ 1 then n else isqrtAux n n (n / 2 + 1)

/-- A concrete instantiation of the numeric library used by the witness runs:
`sqrt` is exact on perfect squares of rationals (and some deterministic
under-approximation elsewhere); the runs below only ever take `pow` at
arguments where the true value is `1` and `sqrt_spd` at the identity. -/
def mySqrt (q : ℚ) : ℚ := (isqrt q.num.toNat : ℚ) / (isqrt q.den : ℚ)

/-- The numeric-ops instance for all concrete runs. -/
def opsX : NumOps := ⟨mySqrt, fun _ _ => 1, fun _ => 1, fun _ => 1, fun m => m⟩

/-- Kirchhoff stress for the `find_bbe` counterexample: a huge `txx` with a
shear chosen so the first Newton step from `bzz = 1` is tiny while the
determinant residual stays large. -/
def tauC4 : M3 := ⟨100000010, 10000, 0, 10000, 0, 0, 0, 0, 0⟩

/-- A spherical Kirchhoff stress `3 I`. -/
def tauSph : M3 := M3.smul 3 M3.I

/-- A traceless trial stress with `norm(S0) = 2` under an exact square root. -/
def TeShear : M3 := ⟨0, 1, 1, 1, 0, 0, 1, 0, 0⟩

/-- `F = I + (1/2)(e01 + e10)`: a finite shear with `det F = 3/4`. -/
def FShear : M3 := ⟨1, 1 / 2, 0, 1 / 2, 1, 0, 0, 0, 1⟩

/-- Hardening modulus tuned so the plastic Newton slope `dg` is exactly `1`
(`-(2/3) * sq23lit * bC10 - twomu = 1` at `twomu = 2`), making the loop
iterates integers that diverge geometrically. -/
def bC10 : ℚ := -(9 * 10 ^ 16) / (2 * 8164965809277261)

/-- `E = 2, Nu = 0, A = 1`, no hardening parameters. -/
def propsA1 : List ℚ := [2, 0, 1, 0, 0, 0, 0, 0, 0, 0]

/-- `E = 2, Nu = 0, A = 1, B = bC10` (linear isotropic). -/
def propsC10 : List ℚ := [2, 0, 1, bC10, 0, 0, 0, 0, 0, 0]

/-- `E = 6, Nu = 0, A = 1`. -/
def propsE6 : List ℚ := [6, 0, 1, 0, 0, 0, 0, 0, 0, 0]

/-- `E = 2, Nu = 0` with the default (huge) yield `A = max_double`. -/
def propsBig : List ℚ := [2, 0, maxDouble, 0, 1, 298, 0, 0, 0, 0]

/-- `E = 2, Nu = 0, A = 2`. -/
def propsA2 : List ℚ := [2, 0, 2, 0, 0, 0, 0, 0, 0, 0]

/-- Zeroed entry state with `Fp = I` and a fresh `TRIAL` flag. -/
def rrZeroState : RRState := ⟨M3.zero, M3.I, 0, 0, StateFlag.TRIAL⟩

/-- Entry state tagged `REMAPPED` with `Fp = 2 I`. -/
def rrRemapState : RRState := ⟨M3.zero, M3.smul 2 M3.I, 0, 0, StateFlag.REMAPPED⟩

/-- Zeroed driver state with `Fp = I`. -/
def evalZeroState : EvalState := ⟨M3.zero, 0, M3.I, 0, 0⟩

/-- Zeroed driver state with `Fp = 2 I`. -/
def eval2IState : EvalState := ⟨M3.zero, 0, M3.smul 2 M3.I, 0, 0⟩

/-- A parameter list with a valid elastic block (`E = 1`, `Nu = 0`) and an
unrecognized hardening name. -/
def pFoo : ParamList :=
  ⟨some ⟨none, some 1, some 0⟩,
   some ⟨some "foo", none, none, none, none, none, none, none, none, none, none⟩⟩

/-- A fully valid parameter list: `E = 1`, `Nu = 0`, no plastic sublist. -/
def pGood : ParamList := ⟨some ⟨none, some 1, some 0⟩, none⟩

/-- The out-state `radial_return` has written when it returns
`RADIAL_RETURN_FAILURE`: `T` already overwritten with
`Te - twomu * gamma * N` at the final (100th, non-converged) `gamma`,
`ep` and `epdot` as accumulated by all 100 failed iterations, `Fp` untouched,
and the flag left `PLASTIC` (or `REMAPPED`). -/
def rrFailState (ops : NumOps) (hardening : Hardening) (rate_dep : RateDependence)
    (props : List ℚ) (Te : M3) (temp dtime : ℚ) (s : RRState) : RRState :=
  let c : RRCtx := ⟨ops, hardening, rate_dep, props, temp, dtime⟩
  let fin := rrIterN c (rrS0 Te) (rrFlowDir c Te) (rrNormS0 ops Te) (rrStart c s) 100
  { T := M3.sub Te (M3.smul (c.twomu * fin.gamma) (rrFlowDir c Te)),
    Fp := s.Fp, ep := fin.ep, epdot := fin.epdot,
    flag := if s.flag = StateFlag.REMAPPED then StateFlag.REMAPPED else StateFlag.PLASTIC }

set_option maxRecDepth 40000

attribute [local semireducible] Rat.add Rat.mul Rat.sub Rat.inv

theorem M3.mul_smul_right (A B : M3) (c : ℚ) :
    M3.mul A (M3.smul c B) = M3.smul c (M3.mul A B) := by
  cases A; cases B
  simp only [M3.mul, M3.smul, M3.mk.injEq]
  refine ⟨?_, ?_, ?_, ?_, ?_, ?_, ?_, ?_, ?_⟩ <;> ring

theorem M3.smul_smul (c d : ℚ) (A : M3) :
    M3.smul c (M3.smul d A) = M3.smul (c * d) A := by
  cases A
  simp only [M3.smul, M3.mk.injEq]
  refine ⟨?_, ?_, ?_, ?_, ?_, ?_, ?_, ?_, ?_⟩ <;> ring

theorem M3.smul_one (A : M3) : M3.smul 1 A = A := by
  cases A
  simp only [M3.smul, M3.mk.injEq]
  refine ⟨?_, ?_, ?_, ?_, ?_, ?_, ?_, ?_, ?_⟩ <;> ring

theorem M3.mul_adjugate (A : M3) : M3.mul A (M3.adjugate A) = M3.smul A.det M3.I := by
  cases A
  simp only [M3.mul, M3.adjugate, M3.smul, M3.I, M3.det, M3.mk.injEq]
  refine ⟨?_, ?_, ?_, ?_, ?_, ?_, ?_, ?_, ?_⟩ <;> ring

theorem M3.mul_invert_self (A : M3) (h : A.det ≠ 0) : M3.mul A (M3.invert A) = M3.I := by
  unfold M3.invert
  rw [M3.mul_smul_right, M3.mul_adjugate, M3.smul_smul, one_div, inv_mul_cancel₀ h]
  exact M3.smul_one _

theorem find_bbe_loop_fst (tau : M3) (mu : ℚ) :
    ∀ fuel z, (find_bbe_loop tau mu fuel z).1 = ErrorCode.SUCCESS ∨
      (find_bbe_loop tau mu fuel z).1 = ErrorCode.ELASTIC_DEFORMATION_UPDATE_FAILURE := by
  intro fuel
  induction fuel with
  | zero => intro z; right; rfl
  | succ n ih =>
    intro z
    simp only [find_bbe_loop]
    split
    · left; rfl
    · exact ih _

theorem find_bbe_fst (tau : M3) (mu : ℚ) :
    (find_bbe tau mu).1 = ErrorCode.SUCCESS ∨
      (find_bbe tau mu).1 = ErrorCode.ELASTIC_DEFORMATION_UPDATE_FAILURE :=
  find_bbe_loop_fst tau mu 25 1

theorem find_bbe_loop_snd (tau : M3) (mu : ℚ) :
    ∀ fuel z, ∃ w, (find_bbe_loop tau mu fuel z).2 = bbeBe tau mu w := by
  intro fuel
  induction fuel with
  | zero => intro z; exact ⟨z, rfl⟩
  | succ n ih =>
    intro z
    simp only [find_bbe_loop]
    split
    · exact ⟨bbeNext tau mu z, rfl⟩
    · exact ih _

theorem bbeBe_deviator (tau : M3) (mu z : ℚ) (h : mu ≠ 0) :
    M3.smul mu (M3.deviator (bbeBe tau mu z)) = M3.deviator tau := by
  cases tau
  simp only [bbeBe, M3.deviator, M3.sub, M3.smul, M3.trace, M3.I, M3.mk.injEq]
  refine ⟨?_, ?_, ?_, ?_, ?_, ?_, ?_, ?_, ?_⟩ <;> field_simp <;> ring

/-- C4 (amended): for a positive shear modulus, whatever tensor `find_bbe`
returns (in particular on `SUCCESS`) satisfies the deviator equation exactly:
`mu * dev(Bbe) = dev(tau)`, so the spec's bound `1e-10 * norm(tau)` holds with
slack; the determinant bound `|det(Bbe) - 1| <= 1e-8` is NOT guaranteed (see
the counterexample), because the loop tests only the Newton step size. -/
theorem C4_find_bbe_deviator_exact (tau : M3) (mu : ℚ) (hmu : 0 < mu)
    (_hsucc : (find_bbe tau mu).1 = ErrorCode.SUCCESS) :
    M3.smul mu (M3.deviator (find_bbe tau mu).2) = M3.deviator tau := by
  obtain ⟨w, hw⟩ := find_bbe_loop_snd tau mu 25 1
  have : (find_bbe tau mu).2 = bbeBe tau mu w := hw
  rw [this]
  exact bbeBe_deviator tau mu w hmu.ne'

/-- C4 witness: the deviator equation, instantiated on the spherical stress
`tau = 3 I` with `mu = 1`, where `find_bbe` succeeds. -/
theorem C4_find_bbe_deviator_witness :
    (0 : ℚ) < 1 ∧ (find_bbe tauSph 1).1 = ErrorCode.SUCCESS ∧
      M3.smul 1 (M3.deviator (find_bbe tauSph 1).2) = M3.deviator tauSph :=
  ⟨by norm_num, by decide, C4_find_bbe_deviator_exact tauSph 1 (by norm_num) (by decide)⟩

/-- C4 counterexample: a symmetric Kirchhoff stress (`txx = 100000010`,
`txy = 10000`, `mu = 1`) on which `find_bbe` returns `SUCCESS` after a single
tiny Newton step while the returned tensor violates `|det(Bbe) - 1| <= 1e-8`
by two orders of magnitude (the residual is about `1e-6`). -/
theorem C4_find_bbe_det_counterexample :
    (find_bbe tauC4 1).1 = ErrorCode.SUCCESS ∧
      (1 : ℚ) / 10 ^ 8 < |M3.det (find_bbe tauC4 1).2 - 1| := by
  constructor
  · decide
  · decide

theorem find_bbe_loop_char (tau : M3) (mu : ℚ) :
    ∀ fuel k, (find_bbe_loop tau mu fuel (bbeZ tau mu k)).1 =
      (if ∃ i, i < fuel ∧ (bbeZ tau mu (k + i + 1) - bbeZ tau mu (k + i)) ^ 2 < 1 / 10 ^ 12
       then ErrorCode.SUCCESS else ErrorCode.ELASTIC_DEFORMATION_UPDATE_FAILURE) := by
  intro fuel
  induction fuel with
  | zero =>
    intro k
    simp [find_bbe_loop]
  | succ n ih =>
    intro k
    have hz : bbeNext tau mu (bbeZ tau mu k) = bbeZ tau mu (k + 1) := rfl
    by_cases hc : (bbeZ tau mu (k + 1) - bbeZ tau mu k) ^ 2 < 1 / 10 ^ 12
    · have hc' : (bbeNext tau mu (bbeZ tau mu k) - bbeZ tau mu k) *
          (bbeNext tau mu (bbeZ tau mu k) - bbeZ tau mu k) < 1 / 10 ^ 12 := by
        rw [hz, ← pow_two]; exact hc
      have hex : ∃ i, i < n + 1 ∧
          (bbeZ tau mu (k + i + 1) - bbeZ tau mu (k + i)) ^ 2 < 1 / 10 ^ 12 :=
        ⟨0, Nat.succ_pos n, by simpa using hc⟩
      simp only [find_bbe_loop]
      rw [if_pos hc', if_pos hex]
    · have hc' : ¬ ((bbeNext tau mu (bbeZ tau mu k) - bbeZ tau mu k) *
          (bbeNext tau mu (bbeZ tau mu k) - bbeZ tau mu k) < 1 / 10 ^ 12) := by
        rw [hz, ← pow_two]; exact hc
      simp only [find_bbe_loop]
      rw [if_neg hc', hz, ih (k + 1)]
      congr 1
      apply propext
      constructor
      · rintro ⟨i, hi, hstep⟩
        refine ⟨i + 1, by omega, ?_⟩
        have e1 : k + (i + 1) = k + 1 + i := by omega
        rw [e1]
        exact hstep
      · rintro ⟨i, hi, hstep⟩
        cases i with
        | zero => exact absurd (by simpa using hstep) hc
        | succ m =>
          refine ⟨m, by omega, ?_⟩
          have e1 : k + 1 + m = k + (m + 1) := by omega
          rw [e1]
          exact hstep

/-- C6: `find_bbe` runs a Newton iteration on the scalar `bzz` with initial
guess `bzz = 1`; it returns `SUCCESS` exactly when one of the 25 allowed
iterations satisfies the convergence test `(bzz_new - bzz_old)^2 < 1e-12`
(at the first such iteration), and otherwise returns
`ELASTIC_DEFORMATION_UPDATE_FAILURE`. -/
theorem C6_find_bbe_newton (tau : M3) (mu : ℚ) :
    bbeZ tau mu 0 = 1 ∧
    (find_bbe tau mu).1 =
      (if ∃ i, i < 25 ∧ (bbeZ tau mu (i + 1) - bbeZ tau mu i) ^ 2 < 1 / 10 ^ 12
       then ErrorCode.SUCCESS else ErrorCode.ELASTIC_DEFORMATION_UPDATE_FAILURE) := by
  refine ⟨rfl, ?_⟩
  have h := find_bbe_loop_char tau mu 25 0
  simpa using h

/-- C6 witness: the characterization evaluated on the spherical stress
`tau = 3 I`, `mu = 1`, where the very first Newton step already satisfies the
convergence test and `find_bbe` returns `SUCCESS`. -/
theorem C6_find_bbe_newton_witness :
    (find_bbe tauSph 1).1 = ErrorCode.SUCCESS := by
  rw [(C6_find_bbe_newton tauSph 1).2]
  rw [if_pos ⟨0, by norm_num, by decide⟩]

theorem tol1_thousand : tol1 * 1000 = (1 : ℚ) / 10 ^ 9 := by norm_num [tol1]

theorem rrAccepted_or (c : RRCtx) (S0 N : M3) (nS0 : ℚ) (s0 : PlasticSt) (i : ℕ) :
    rrAccepted c S0 N nS0 s0 i ↔
      (rrIter c S0 N nS0 (rrIterN c S0 N nS0 s0 i)).2.1 < tol1 ∨
      |(rrIter c S0 N nS0 (rrIterN c S0 N nS0 s0 i)).2.2| < c.tol2 ∨
      (24 < i ∧ (rrIter c S0 N nS0 (rrIterN c S0 N nS0 s0 i)).2.1 ≤ tol1 * 1000) := by
  rw [tol1_thousand]
  exact Iff.rfl

theorem rrLoop_of_none (c : RRCtx) (S0 N : M3) (nS0 : ℚ) (s0 : PlasticSt) :
    ∀ fuel j, (∀ k, k < fuel → ¬ rrAccepted c S0 N nS0 s0 (j + k)) →
      rrLoop c S0 N nS0 fuel j (rrIterN c S0 N nS0 s0 j) =
        (rrIterN c S0 N nS0 s0 (j + fuel), 0) := by
  intro fuel
  induction fuel with
  | zero => intro j _; simp [rrLoop]
  | succ n ih =>
    intro j hnone
    have h0 : ¬ rrAccepted c S0 N nS0 s0 j := by
      have := hnone 0 (Nat.succ_pos n)
      simpa using this
    rw [rrAccepted_or] at h0
    have h1 := fun a => h0 (Or.inl a)
    have h2 := fun b => h0 (Or.inr (Or.inl b))
    have h3 := fun b => h0 (Or.inr (Or.inr b))
    simp only [rrLoop]
    rw [if_neg h1, if_neg h2, if_neg h3]
    have hsh : (rrIter c S0 N nS0 (rrIterN c S0 N nS0 s0 j)).1 =
        rrIterN c S0 N nS0 s0 (j + 1) := rfl
    rw [hsh, ih (j + 1) ?_, show j + 1 + n = j + (n + 1) from by omega]
    intro k hk
    have h := hnone (k + 1) (by omega)
    rwa [show j + (k + 1) = j + 1 + k from by omega] at h

theorem rrLoop_none_imp (c : RRCtx) (S0 N : M3) (nS0 : ℚ) (s0 : PlasticSt) :
    ∀ fuel j, (rrLoop c S0 N nS0 fuel j (rrIterN c S0 N nS0 s0 j)).2 = 0 →
      ∀ k, k < fuel → ¬ rrAccepted c S0 N nS0 s0 (j + k) := by
  intro fuel
  induction fuel with
  | zero => intro j _ k hk; omega
  | succ n ih =>
    intro j hconv k hk
    by_cases hacc : rrAccepted c S0 N nS0 s0 j
    · exfalso
      rw [rrAccepted_or] at hacc
      simp only [rrLoop] at hconv
      rcases hacc with h1 | h2 | h3
      · rw [if_pos h1] at hconv; exact one_ne_zero hconv
      · by_cases h1 : (rrIter c S0 N nS0 (rrIterN c S0 N nS0 s0 j)).2.1 < tol1
        · rw [if_pos h1] at hconv; exact one_ne_zero hconv
        · rw [if_neg h1, if_pos h2] at hconv; exact one_ne_zero hconv
      · by_cases h1 : (rrIter c S0 N nS0 (rrIterN c S0 N nS0 s0 j)).2.1 < tol1
        · rw [if_pos h1] at hconv; exact one_ne_zero hconv
        · rw [if_neg h1] at hconv
          by_cases h2 : |(rrIter c S0 N nS0 (rrIterN c S0 N nS0 s0 j)).2.2| < c.tol2
          · rw [if_pos h2] at hconv; exact one_ne_zero hconv
          · rw [if_neg h2, if_pos h3] at hconv; exact two_ne_zero hconv
    · cases k with
      | zero => simpa using hacc
      | succ m =>
        rw [rrAccepted_or] at hacc
        have h1 := fun a => hacc (Or.inl a)
        have h2 := fun b => hacc (Or.inr (Or.inl b))
        have h3 := fun b => hacc (Or.inr (Or.inr b))
        simp only [rrLoop] at hconv
        rw [if_neg h1, if_neg h2, if_neg h3] at hconv
        have hsh : (rrIter c S0 N nS0 (rrIterN c S0 N nS0 s0 j)).1 =
            rrIterN c S0 N nS0 s0 (j + 1) := rfl
        rw [hsh] at hconv
        have h := ih (j + 1) hconv m (by omega)
        rwa [show j + 1 + m = j + (m + 1) from by omega] at h

theorem rrLoop_conv_iff (c : RRCtx) (S0 N : M3) (nS0 : ℚ) (s0 : PlasticSt) :
    (rrLoop c S0 N nS0 100 0 s0).2 = 0 ↔ ∀ i, i < 100 → ¬ rrAccepted c S0 N nS0 s0 i := by
  have h0 : rrIterN c S0 N nS0 s0 0 = s0 := rfl
  constructor
  · intro hconv i hi
    have := rrLoop_none_imp c S0 N nS0 s0 100 0 (by rwa [h0]) i hi
    simpa using this
  · intro hnone
    have := rrLoop_of_none c S0 N nS0 s0 100 0 (fun k hk => by simpa using hnone k hk)
    rw [h0] at this
    rw [this]

theorem rrLoop_state_of_none (c : RRCtx) (S0 N : M3) (nS0 : ℚ) (s0 : PlasticSt)
    (hconv : (rrLoop c S0 N nS0 100 0 s0).2 = 0) :
    (rrLoop c S0 N nS0 100 0 s0).1 = rrIterN c S0 N nS0 s0 100 := by
  have h0 : rrIterN c S0 N nS0 s0 0 = s0 := rfl
  have hnone := (rrLoop_conv_iff c S0 N nS0 s0).mp hconv
  have := rrLoop_of_none c S0 N nS0 s0 100 0 (fun k hk => by simpa using hnone k hk)
  rw [h0] at this
  rw [this]

theorem rrFinish_fst (c : RRCtx) (F : M3) (st : RRState) :
    (rrFinish c F st).1 = ErrorCode.SUCCESS ∨
      (rrFinish c F st).1 = ErrorCode.ELASTIC_DEFORMATION_UPDATE_FAILURE := by
  unfold rrFinish
  by_cases h1 : st.flag = StateFlag.ELASTIC
  · rw [if_pos h1]; left; rfl
  · rw [if_neg h1]
    rcases find_bbe_fst st.T c.mu with h2 | h2
    · rw [if_neg (by rw [h2]; exact fun hcon => hcon rfl)]
      by_cases h3 : st.flag = StateFlag.REMAPPED
      · rw [if_pos h3]; left; rfl
      · rw [if_neg h3]; left; rfl
    · rw [if_pos (by rw [h2]; intro hcon; exact absurd hcon (by decide))]
      right; exact h2

theorem rrFinish_fst_ne (c : RRCtx) (F : M3) (st : RRState) :
    (rrFinish c F st).1 ≠ ErrorCode.RADIAL_RETURN_FAILURE := by
  rcases rrFinish_fst c F st with h | h <;> rw [h] <;> decide

/-- C5: the plastic branch of `radial_return` accepts an iteration exactly
when its `f < 1e-12`, or its `|dgamma| < min(dtime, 1e-6)`, or - weak
acceptance, allowed only after iteration 24 - `f <= 1e-9` (`rrAccepted`
states precisely this disjunction); the call returns
`RADIAL_RETURN_FAILURE` exactly when the trial state is plastic
(`f_trial > 1e-12`) and none of the 100 allowed iterations is accepted. -/
theorem C5_radial_return_acceptance (ops : NumOps) (h : Hardening) (r : RateDependence)
    (props : List ℚ) (Te F : M3) (temp dtime : ℚ) (s : RRState) :
    (radial_return ops h r props Te F temp dtime s).1 = ErrorCode.RADIAL_RETURN_FAILURE ↔
      (tol1 < rrTrialF ⟨ops, h, r, props, temp, dtime⟩ Te s ∧
       ∀ i, i < 100 → ¬ rrAccepted ⟨ops, h, r, props, temp, dtime⟩ (rrS0 Te)
          (rrFlowDir ⟨ops, h, r, props, temp, dtime⟩ Te) (rrNormS0 ops Te)
          (rrStart ⟨ops, h, r, props, temp, dtime⟩ s) i) := by
  simp only [radial_return]
  by_cases hf : rrTrialF ⟨ops, h, r, props, temp, dtime⟩ Te s ≤ tol1
  · rw [if_pos hf]
    constructor
    · intro habs
      exact absurd habs (rrFinish_fst_ne _ _ _)
    · rintro ⟨hlt, _⟩
      exact absurd hf (not_le.mpr hlt)
  · rw [if_neg hf]
    by_cases hcv : (rrLoop ⟨ops, h, r, props, temp, dtime⟩ (rrS0 Te)
        (rrFlowDir ⟨ops, h, r, props, temp, dtime⟩ Te) (rrNormS0 ops Te) 100 0
        (rrStart ⟨ops, h, r, props, temp, dtime⟩ s)).2 = 0
    · rw [if_pos hcv]
      constructor
      · intro _
        exact ⟨not_le.mp hf, (rrLoop_conv_iff _ _ _ _ _).mp hcv⟩
      · intro _; rfl
    · rw [if_neg hcv]
      constructor
      · intro habs
        exact absurd habs (rrFinish_fst_ne _ _ _)
      · rintro ⟨_, hnone⟩
        exact absurd ((rrLoop_conv_iff _ _ _ _ _).mpr hnone) hcv

/-- C5 witness: a concrete plastic call (trial `f = 1` so the plastic branch
is entered) in which iteration 0 is accepted (`f` vanishes there), so the
characterization yields a code different from `RADIAL_RETURN_FAILURE`. -/
theorem C5_radial_return_acceptance_witness :
    (radial_return opsX Hardening.NONE RateDependence.NONE propsA1 TeShear M3.I 0 1
      rrZeroState).1 ≠ ErrorCode.RADIAL_RETURN_FAILURE := by
  rw [ne_eq, C5_radial_return_acceptance]
  intro hcon
  exact hcon.2 0 (by norm_num) (by decide)

/-- C10: when `radial_return` reports `RADIAL_RETURN_FAILURE` (the plastic
loop exhausted its 100 iterations without acceptance), the out-state has
already been overwritten: `T = Te - twomu * gamma * N` with the last
non-converged `gamma`, and `ep`, `epdot` keep the values accumulated over all
100 failed iterations while `Fp` is untouched - the error return is not
atomic with respect to the in/out parameters. -/
theorem C10_failure_not_atomic (ops : NumOps) (h : Hardening) (r : RateDependence)
    (props : List ℚ) (Te F : M3) (temp dtime : ℚ) (s : RRState)
    (hfail : (radial_return ops h r props Te F temp dtime s).1 =
      ErrorCode.RADIAL_RETURN_FAILURE) :
    (radial_return ops h r props Te F temp dtime s).2 =
      rrFailState ops h r props Te temp dtime s := by
  simp only [radial_return] at hfail ⊢
  by_cases hf : rrTrialF ⟨ops, h, r, props, temp, dtime⟩ Te s ≤ tol1
  · rw [if_pos hf] at hfail
    exact absurd hfail (rrFinish_fst_ne _ _ _)
  · rw [if_neg hf] at hfail ⊢
    by_cases hcv : (rrLoop ⟨ops, h, r, props, temp, dtime⟩ (rrS0 Te)
        (rrFlowDir ⟨ops, h, r, props, temp, dtime⟩ Te) (rrNormS0 ops Te) 100 0
        (rrStart ⟨ops, h, r, props, temp, dtime⟩ s)).2 = 0
    · rw [if_pos hcv]
      rw [rrLoop_state_of_none _ _ _ _ _ hcv]
      simp only [rrFailState]
      by_cases hrm : s.flag = StateFlag.REMAPPED
      · simp [hrm]
      · simp [hrm]
    · rw [if_neg hcv] at hfail
      exact absurd hfail (rrFinish_fst_ne _ _ _)

/-- C10 witness: a concrete diverging plastic call (linear isotropic softening
tuned so the Newton slope is exactly 1 and the iterates diverge geometrically):
the loop fails after 100 iterations and the returned state is exactly
`rrFailState`, in particular `Fp` is untouched while `T` has been overwritten. -/
theorem C10_failure_not_atomic_witness :
    (radial_return opsX Hardening.LINEAR_ISOTROPIC RateDependence.NONE propsC10 TeShear
        M3.I 0 1 rrZeroState).1 = ErrorCode.RADIAL_RETURN_FAILURE ∧
    (radial_return opsX Hardening.LINEAR_ISOTROPIC RateDependence.NONE propsC10 TeShear
        M3.I 0 1 rrZeroState).2 =
      rrFailState opsX Hardening.LINEAR_ISOTROPIC RateDependence.NONE propsC10 TeShear
        0 1 rrZeroState :=
  have hfail : (radial_return opsX Hardening.LINEAR_ISOTROPIC RateDependence.NONE propsC10
      TeShear M3.I 0 1 rrZeroState).1 = ErrorCode.RADIAL_RETURN_FAILURE := by decide
  ⟨hfail, C10_failure_not_atomic opsX Hardening.LINEAR_ISOTROPIC RateDependence.NONE
    propsC10 TeShear M3.I 0 1 rrZeroState hfail⟩

theorem rrFinish_elastic (c : RRCtx) (F : M3) (st : RRState)
    (h : st.flag = StateFlag.ELASTIC) : rrFinish c F st = (ErrorCode.SUCCESS, st) := by
  unfold rrFinish
  rw [if_pos h]

theorem rr_elastic_helper (ops : NumOps) (h : Hardening) (r : RateDependence)
    (props : List ℚ) (Te F : M3) (temp dtime : ℚ) (s : RRState)
    (hflag : s.flag ≠ StateFlag.REMAPPED)
    (hf : rrTrialF ⟨ops, h, r, props, temp, dtime⟩ Te s ≤ tol1) :
    radial_return ops h r props Te F temp dtime s =
      (ErrorCode.SUCCESS, { s with T := Te, flag := StateFlag.ELASTIC }) := by
  simp only [radial_return]
  rw [if_pos hf]
  have e1 : (if s.flag ≠ StateFlag.REMAPPED then StateFlag.TRIAL else s.flag)
      = StateFlag.TRIAL := if_pos hflag
  rw [e1]
  rw [if_pos (show StateFlag.TRIAL ≠ StateFlag.REMAPPED from by decide)]
  exact rrFinish_elastic _ _ _ rfl

/-- C7 (amended): in the elastic branch (`f <= 1e-12`) and with an entry flag
other than `REMAPPED`, `radial_return` returns `SUCCESS` with `T` equal to the
trial stress `Te` exactly, `Fp` (and `ep`, `epdot`) unchanged, and the flag set
to `ELASTIC`.  The claim's unconditional reading fails for a `REMAPPED` entry,
where the tail still rewrites `Fp` and the diagonal of `T`
(see the counterexample). -/
theorem C7_elastic_branch (ops : NumOps) (h : Hardening) (r : RateDependence)
    (props : List ℚ) (Te F : M3) (temp dtime : ℚ) (s : RRState)
    (hflag : s.flag ≠ StateFlag.REMAPPED)
    (hf : rrTrialF ⟨ops, h, r, props, temp, dtime⟩ Te s ≤ tol1) :
    radial_return ops h r props Te F temp dtime s =
      (ErrorCode.SUCCESS, { s with T := Te, flag := StateFlag.ELASTIC }) :=
  rr_elastic_helper ops h r props Te F temp dtime s hflag hf

/-- C7 witness: the elastic branch evaluated at a concrete input
(`Te = 0`, yield `A = 1`, entry flag `TRIAL`). -/
theorem C7_elastic_branch_witness :
    rrZeroState.flag ≠ StateFlag.REMAPPED ∧
    rrTrialF ⟨opsX, Hardening.NONE, RateDependence.NONE, propsA1, 0, 1⟩ M3.zero
      rrZeroState ≤ tol1 ∧
    radial_return opsX Hardening.NONE RateDependence.NONE propsA1 M3.zero M3.I 0 1
        rrZeroState =
      (ErrorCode.SUCCESS, { rrZeroState with T := M3.zero, flag := StateFlag.ELASTIC }) :=
  ⟨by decide, by decide,
    C7_elastic_branch opsX Hardening.NONE RateDependence.NONE propsA1 M3.zero M3.I 0 1
      rrZeroState (by decide) (by decide)⟩

/-- C7 counterexample: entry flag `REMAPPED` with an elastic trial check
(`f = -1 <= 1e-12`, `Te = 3 I`).  The branch sets `T = Te`, but the tail then
rebuilds `Fp` (here from `2 I` to `I`) and replaces the diagonal of `T`
(here `3 I` becomes `-3 I`), so on exit `T` is not bit-identical to `Te` and
`Fp` is not left unchanged. -/
theorem C7_elastic_branch_counterexample :
    rrTrialF ⟨opsX, Hardening.NONE, RateDependence.NONE, propsA1, 0, 1⟩ tauSph
      rrRemapState ≤ tol1 ∧
    (radial_return opsX Hardening.NONE RateDependence.NONE propsA1 tauSph M3.I 0 1
        rrRemapState).1 = ErrorCode.SUCCESS ∧
    (radial_return opsX Hardening.NONE RateDependence.NONE propsA1 tauSph M3.I 0 1
        rrRemapState).2.Fp ≠ rrRemapState.Fp ∧
    (radial_return opsX Hardening.NONE RateDependence.NONE propsA1 tauSph M3.I 0 1
        rrRemapState).2.T ≠ tauSph :=
  ⟨by decide, by decide, by decide, by decide⟩

theorem rrIter_state (c : RRCtx) (S0 N : M3) (nS0 : ℚ) (s : PlasticSt)
    (hdt : 0 < c.dtime) :
    s.ep ≤ ((rrIter c S0 N nS0 s).1).ep ∧ 0 ≤ ((rrIter c S0 N nS0 s).1).epdot := by
  simp only [rrIter]
  constructor
  · exact le_add_of_nonneg_right (le_max_right _ _)
  · exact div_nonneg (le_max_right _ _) hdt.le

theorem rrLoop_state_mono (c : RRCtx) (S0 N : M3) (nS0 : ℚ) (hdt : 0 < c.dtime) :
    ∀ fuel i s, s.ep ≤ ((rrLoop c S0 N nS0 fuel i s).1).ep ∧
      (((rrLoop c S0 N nS0 fuel i s).1).epdot = s.epdot ∨
        0 ≤ ((rrLoop c S0 N nS0 fuel i s).1).epdot) := by
  intro fuel
  induction fuel with
  | zero => intro i s; exact ⟨le_refl _, Or.inl rfl⟩
  | succ n ih =>
    intro i s
    simp only [rrLoop]
    split_ifs with h1 h2 h3
    · exact ⟨(rrIter_state c S0 N nS0 s hdt).1, Or.inr (rrIter_state c S0 N nS0 s hdt).2⟩
    · exact ⟨(rrIter_state c S0 N nS0 s hdt).1, Or.inr (rrIter_state c S0 N nS0 s hdt).2⟩
    · exact ⟨(rrIter_state c S0 N nS0 s hdt).1, Or.inr (rrIter_state c S0 N nS0 s hdt).2⟩
    · obtain ⟨ha, hb⟩ := ih (i + 1) (rrIter c S0 N nS0 s).1
      refine ⟨le_trans (rrIter_state c S0 N nS0 s hdt).1 ha, ?_⟩
      rcases hb with hb | hb
      · right; rw [hb]; exact (rrIter_state c S0 N nS0 s hdt).2
      · right; exact hb

theorem rrFinish_ep (c : RRCtx) (F : M3) (st : RRState) :
    (rrFinish c F st).2.ep = st.ep ∧ (rrFinish c F st).2.epdot = st.epdot := by
  simp only [rrFinish]
  split_ifs <;> exact ⟨rfl, rfl⟩

theorem radial_return_mono (ops : NumOps) (h : Hardening) (r : RateDependence)
    (props : List ℚ) (Te F : M3) (temp dtime : ℚ) (s : RRState)
    (hep : 0 ≤ s.epdot) (hdt : 0 < dtime) :
    s.ep ≤ (radial_return ops h r props Te F temp dtime s).2.ep ∧
      0 ≤ (radial_return ops h r props Te F temp dtime s).2.epdot := by
  simp only [radial_return]
  by_cases hf : rrTrialF ⟨ops, h, r, props, temp, dtime⟩ Te s ≤ tol1
  · rw [if_pos hf]
    constructor
    · rw [(rrFinish_ep _ _ _).1]
    · rw [(rrFinish_ep _ _ _).2]
      exact hep
  · rw [if_neg hf]
    have hdt' : 0 < (⟨ops, h, r, props, temp, dtime⟩ : RRCtx).dtime := hdt
    have hlp := rrLoop_state_mono ⟨ops, h, r, props, temp, dtime⟩ (rrS0 Te)
      (rrFlowDir ⟨ops, h, r, props, temp, dtime⟩ Te) (rrNormS0 ops Te) hdt' 100 0
      (rrStart ⟨ops, h, r, props, temp, dtime⟩ s)
    have hepd : 0 ≤ ((rrLoop ⟨ops, h, r, props, temp, dtime⟩ (rrS0 Te)
        (rrFlowDir ⟨ops, h, r, props, temp, dtime⟩ Te) (rrNormS0 ops Te) 100 0
        (rrStart ⟨ops, h, r, props, temp, dtime⟩ s)).1).epdot := by
      rcases hlp.2 with hb | hb
      · rw [hb]; exact hep
      · exact hb
    by_cases hcv : (rrLoop ⟨ops, h, r, props, temp, dtime⟩ (rrS0 Te)
        (rrFlowDir ⟨ops, h, r, props, temp, dtime⟩ Te) (rrNormS0 ops Te) 100 0
        (rrStart ⟨ops, h, r, props, temp, dtime⟩ s)).2 = 0
    · rw [if_pos hcv]
      exact ⟨hlp.1, hepd⟩
    · rw [if_neg hcv]
      constructor
      · rw [(rrFinish_ep _ _ _).1]
        exact hlp.1
      · rw [(rrFinish_ep _ _ _).2]
        exact hepd

/-- C8: across a call of the update driver (elastic branch, plastic branch,
and the failure paths alike), the equivalent plastic strain `ep` never
decreases, and on exit `epdot >= 0`, given `dtime > 0` and entry state
satisfying the standing invariant `epdot >= 0` (the elastic branch returns
`epdot` untouched, so the exit bound is invariant preservation). -/
theorem C8_ep_monotone_epdot_nonneg (ops : NumOps) (el : Elastic) (h : Hardening)
    (r : RateDependence) (props : List ℚ) (rho : ℚ) (F : M3) (dtime temp : ℚ)
    (s : EvalState) (hep : 0 ≤ s.epdot) (hdt : 0 < dtime) :
    s.ep ≤ (evalUpdate ops el h r props rho F dtime temp s).2.ep ∧
      0 ≤ (evalUpdate ops el h r props rho F dtime temp s).2.epdot := by
  simp only [evalUpdate]
  have hpres : (trialPredictor ops el props (M3.mul F (M3.invert s.Fp)) (M3.det F)).1
      = ErrorCode.SUCCESS := by
    cases el <;> rfl
  rw [if_neg (by rw [hpres]; exact fun hcon => hcon rfl)]
  exact radial_return_mono ops h r props _ F temp dtime
    ⟨s.T, s.Fp, s.ep, s.epdot, StateFlag.TRIAL⟩ hep hdt

/-- C8 witness: the invariant instantiated on a concrete elastic update
(linear elastic shear with the default huge yield). -/
theorem C8_ep_monotone_epdot_nonneg_witness :
    (0 : ℚ) ≤ evalZeroState.epdot ∧ (0 : ℚ) < 1 ∧
    (evalZeroState.ep ≤ (evalUpdate opsX Elastic.LINEAR_ELASTIC Hardening.NONE
        RateDependence.NONE propsBig 2 FShear 1 0 evalZeroState).2.ep ∧
      0 ≤ (evalUpdate opsX Elastic.LINEAR_ELASTIC Hardening.NONE
        RateDependence.NONE propsBig 2 FShear 1 0 evalZeroState).2.epdot) :=
  ⟨by decide, by norm_num,
    C8_ep_monotone_epdot_nonneg opsX Elastic.LINEAR_ELASTIC Hardening.NONE
      RateDependence.NONE propsBig 2 FShear 1 0 evalZeroState (by decide) (by norm_num)⟩

theorem linearelastic_at_I (props : List ℚ) (jac : ℚ) :
    linearelasticstress props M3.I jac = (ErrorCode.SUCCESS, M3.zero) := by
  simp only [linearelasticstress, M3.sub, M3.add, M3.smul, M3.transpose, M3.trace,
    M3.I, M3.zero, Prod.mk.injEq, M3.mk.injEq]
  norm_num

theorem hyperstress_at_I (ops : NumOps) (props : List ℚ) :
    hyperstress ops props M3.I 1 = (ErrorCode.SUCCESS, M3.zero) := by
  simp only [hyperstress, M3.mul, M3.sub, M3.add, M3.smul, M3.transpose, M3.trace,
    M3.I, M3.zero, Prod.mk.injEq, M3.mk.injEq, true_and]
  refine ⟨?_, ?_, ?_, ?_, ?_, ?_, ?_, ?_, ?_⟩ <;> ring

/-- C3 (amended): for a zero deformation increment `F = Fp` the update returns
`T = 0` exactly, under the linear elastic predictor whenever `det F ≠ 0`, and
under the Neo-Hookean predictor when additionally `det F = 1` (the claim as
stated fails for Neo-Hookean when `det F ≠ 1`, because the pressure term
`2/D1 * (jac - 1)` uses `jac = det F`; see the counterexample).  Hypotheses on
`ops` state the square-root facts used (`sqrt 0 = 0`, `sqrt 3 > 0`) and the
entry yield strength is nonnegative. -/
theorem C3_zero_increment_zero_stress (ops : NumOps) (el : Elastic) (h : Hardening)
    (r : RateDependence) (props : List ℚ) (rho : ℚ) (F : M3) (dtime temp : ℚ)
    (s : EvalState) (hFp : s.Fp = F)
    (hdet : (el = Elastic.LINEAR_ELASTIC ∧ M3.det F ≠ 0) ∨ M3.det F = 1)
    (h0 : ops.sqrt 0 = 0) (h3 : 0 < ops.sqrt 3)
    (hY : 0 ≤ flow_stress ops h r props temp s.ep s.epdot) :
    (evalUpdate ops el h r props rho F dtime temp s).1 = ErrorCode.SUCCESS ∧
      (evalUpdate ops el h r props rho F dtime temp s).2.T = M3.zero := by
  have hdet0 : M3.det F ≠ 0 := by
    rcases hdet with ⟨_, hd⟩ | hd
    · exact hd
    · rw [hd]; norm_num
  have hFe : M3.mul F (M3.invert s.Fp) = M3.I := by
    rw [hFp]; exact M3.mul_invert_self F hdet0
  have hTe : trialPredictor ops el props (M3.mul F (M3.invert s.Fp)) (M3.det F) =
      (ErrorCode.SUCCESS, M3.zero) := by
    cases el with
    | LINEAR_ELASTIC =>
      simp only [trialPredictor]
      rw [hFe]
      exact linearelastic_at_I props (M3.det F)
    | NEO_HOOKEAN =>
      rcases hdet with ⟨hel, _⟩ | hd
      · exact absurd hel (by decide)
      · simp only [trialPredictor]
        rw [hFe, hd]
        exact hyperstress_at_I ops props
  have hnormSq : M3.normSq (rrS0 M3.zero) = 0 := by decide
  have hnorm : rrNormS0 ops M3.zero = 0 := by
    unfold rrNormS0
    rw [hnormSq, h0]
  have hf : rrTrialF ⟨ops, h, r, props, temp, dtime⟩ M3.zero
      ⟨s.T, s.Fp, s.ep, s.epdot, StateFlag.TRIAL⟩ ≤ tol1 := by
    show rrNormS0 ops M3.zero / ops.sqrt 2
        - flow_stress ops h r props temp s.ep s.epdot / ops.sqrt 3 ≤ tol1
    rw [hnorm, zero_div, zero_sub]
    have hq : 0 ≤ flow_stress ops h r props temp s.ep s.epdot / ops.sqrt 3 :=
      div_nonneg hY h3.le
    have ht : (0 : ℚ) ≤ tol1 := by norm_num [tol1]
    linarith
  have hrr := rr_elastic_helper ops h r props M3.zero F temp dtime
    ⟨s.T, s.Fp, s.ep, s.epdot, StateFlag.TRIAL⟩ (fun hcon => StateFlag.noConfusion hcon) hf
  simp only [evalUpdate]
  rw [hTe]
  dsimp only
  rw [if_neg (fun hcon => hcon rfl)]
  rw [hrr]
  exact ⟨rfl, rfl⟩

/-- C3 witness: `F = Fp = I` under the Neo-Hookean predictor, yield `A = 1`;
the update returns `SUCCESS` with `T = 0` exactly. -/
theorem C3_zero_increment_zero_stress_witness :
    evalZeroState.Fp = M3.I ∧ M3.det M3.I = 1 ∧
    ((evalUpdate opsX Elastic.NEO_HOOKEAN Hardening.NONE RateDependence.NONE propsA1 2
        M3.I 1 0 evalZeroState).1 = ErrorCode.SUCCESS ∧
      (evalUpdate opsX Elastic.NEO_HOOKEAN Hardening.NONE RateDependence.NONE propsA1 2
        M3.I 1 0 evalZeroState).2.T = M3.zero) :=
  ⟨by decide, by decide,
    C3_zero_increment_zero_stress opsX Elastic.NEO_HOOKEAN Hardening.NONE
      RateDependence.NONE propsA1 2 M3.I 1 0 evalZeroState (by decide)
      (Or.inr (by decide)) (by decide) (by decide) (by decide)⟩

/-- C3 counterexample: `F = Fp = 2 I` (so the deformation increment is zero
and `Fe = I` exactly) under the Neo-Hookean predictor with `E = 6`, `Nu = 0`:
`det F = 8`, the trial stress is the pure pressure `14 I`, the radial return
takes the elastic branch, and the update returns `SUCCESS` with `T = 14 I`,
not zero (nor anywhere near machine epsilon of it). -/
theorem C3_zero_increment_counterexample :
    eval2IState.Fp = M3.smul 2 M3.I ∧
    (evalUpdate opsX Elastic.NEO_HOOKEAN Hardening.NONE RateDependence.NONE propsE6 6
        (M3.smul 2 M3.I) 1 0 eval2IState).1 = ErrorCode.SUCCESS ∧
    (evalUpdate opsX Elastic.NEO_HOOKEAN Hardening.NONE RateDependence.NONE propsE6 6
        (M3.smul 2 M3.I) 1 0 eval2IState).2.T = M3.smul 14 M3.I ∧
    (evalUpdate opsX Elastic.NEO_HOOKEAN Hardening.NONE RateDependence.NONE propsE6 6
        (M3.smul 2 M3.I) 1 0 eval2IState).2.T ≠ M3.zero :=
  ⟨by decide, by decide, by decide, by decide⟩

/-- C1 (amended): `flow_stress` computes the per-model yield strength `Y`
(restated declaratively from the spec in `specYieldY`) and returns it with no
damage factor - the function has no `dp` input; `dflow_stress` returns the
source's literal `0.8164965809277261` times `dY/dep` (`specYieldDeriv`),
likewise with no damage factor.  The claimed multiplication by `(1 - dp)` does
not exist in the code (see the counterexample). -/
theorem C1_flow_stress_no_damage (ops : NumOps) (h : Hardening) (r : RateDependence)
    (props : List ℚ) (temp ep epdot dtime : ℚ) :
    flow_stress ops h r props temp ep epdot = specYieldY ops h r props temp ep epdot ∧
    dflow_stress ops h r props temp ep epdot dtime =
      sq23lit * specYieldDeriv ops h r props temp ep epdot dtime := by
  refine ⟨?_, ?_⟩ <;> cases h <;> cases r <;> rfl

/-- C1 counterexample: with no hardening and `A = 2`, the code returns `Y = 2`
regardless of any damage value, while the claim's `(1 - dp) * Y` at `dp = 1/2`
would be `1`: the claimed damage factor is absent from the code. -/
theorem C1_damage_factor_counterexample :
    flow_stress opsX Hardening.NONE RateDependence.NONE propsA2 0 0 0 = 2 ∧
    flowStressClaimed opsX Hardening.NONE RateDependence.NONE propsA2 0 0 0 (1 / 2) = 1 ∧
    flow_stress opsX Hardening.NONE RateDependence.NONE propsA2 0 0 0 ≠
      flowStressClaimed opsX Hardening.NONE RateDependence.NONE propsA2 0 0 0 (1 / 2) :=
  ⟨by decide, by decide, by decide⟩

/-- C2 (amended): the update driver applies no erosion, damage, or TEPLA
logic: its error code and out-state are exactly those of `radial_return` on
the predictor's trial stress (plus the wave speed written first), with no
stress modification afterwards; the driver has no damage state (`dp`,
`localized`, and the erosion flags do not exist in its interface). -/
theorem C2_driver_no_erosion (ops : NumOps) (el : Elastic) (h : Hardening)
    (r : RateDependence) (props : List ℚ) (rho : ℚ) (F : M3) (dtime temp : ℚ)
    (s : EvalState) :
    evalUpdate ops el h r props rho F dtime temp s =
      (let pres := trialPredictor ops el props (M3.mul F (M3.invert s.Fp)) (M3.det F)
       let rr := radial_return ops h r props pres.2 F temp dtime
         ⟨s.T, s.Fp, s.ep, s.epdot, StateFlag.TRIAL⟩
       (rr.1, ⟨rr.2.T,
         ops.sqrt ((props.getD 0 0 / 3 / (1 - 2 * props.getD 1 0)
           + 4 / 3 * (props.getD 0 0 / 2 / (1 + props.getD 1 0))) / rho),
         rr.2.Fp, rr.2.ep, rr.2.epdot⟩)) := by
  simp only [evalUpdate]
  have hpres : (trialPredictor ops el props (M3.mul F (M3.invert s.Fp)) (M3.det F)).1
      = ErrorCode.SUCCESS := by
    cases el <;> rfl
  rw [if_neg (by rw [hpres]; exact fun hcon => hcon rfl)]

/-- C2 counterexample: a localized point (`localized = 1`) with the
`set_stress_to_zero` erosion flag must, per the claim, leave the update with
`T = 0` (the spec-modelled erosion `applyErosionSpec false false true` sends
every stress to zero).  On a concrete elastic run the driver returns `SUCCESS`
with a nonzero stress and performs no erosion at all. -/
theorem C2_driver_erosion_counterexample :
    (evalUpdate opsX Elastic.LINEAR_ELASTIC Hardening.NONE RateDependence.NONE propsBig 2
        FShear 1 0 evalZeroState).1 = ErrorCode.SUCCESS ∧
    applyErosionSpec false false true
      (evalUpdate opsX Elastic.LINEAR_ELASTIC Hardening.NONE RateDependence.NONE propsBig 2
        FShear 1 0 evalZeroState).2.T = M3.zero ∧
    (evalUpdate opsX Elastic.LINEAR_ELASTIC Hardening.NONE RateDependence.NONE propsBig 2
        FShear 1 0 evalZeroState).2.T ≠ M3.zero :=
  ⟨by decide, by decide, by decide⟩

theorem validate_split (p : ParamList) :
    exceptOk (validate_params p) =
      (exceptOk (read_and_validate_elastic_params p) &&
       exceptOk (read_and_validate_plastic_params p)) := by
  unfold validate_params
  cases he : read_and_validate_elastic_params p <;>
    cases hp : read_and_validate_plastic_params p <;>
      simp [exceptOk, he, hp, Except.bind, Bind.bind]

theorem elastic_ok_iff (p : ParamList) :
    exceptOk (read_and_validate_elastic_params p) = true ↔
      (match p.elastic with
       | none => False
       | some el =>
         (match el.hyperelastic with
          | none => True
          | some hname => hname = "neo hookean") ∧
         (match el.E with
          | none => False
          | some Ev => ¬(Ev ≤ 0)) ∧
         (match el.Nu with
          | none => False
          | some Nuv => ¬(Nuv ≤ -1 ∨ Nuv ≥ (1 / 2 : ℚ)))) := by
  unfold read_and_validate_elastic_params
  cases hE : p.elastic with
  | none => simp [exceptOk]
  | some el =>
    cases hh : el.hyperelastic <;> cases hEv : el.E <;> cases hNu : el.Nu <;>
      simp_all [exceptOk, Except.bind, Bind.bind] <;> split_ifs <;> simp_all [exceptOk] <;>
        try (intro h1; rcases ‹_ ∨ _› with h2 | h2 <;> linarith)

theorem hardening_ok_iff (pl : PlasticPL) :
    exceptOk (read_plastic_hardening pl) = true ↔
      (match pl.hardening with
       | none => True
       | some model => model = "linear isotropic" ∨ model = "power law" ∨
           model = "zerilli armstrong" ∨ model = "johnson cook") := by
  unfold read_plastic_hardening
  cases hh : pl.hardening with
  | none => simp [hh, exceptOk]
  | some model =>
    simp only [hh]
    split_ifs <;> simp_all [exceptOk]

theorem hardening_snd (pl : PlasticPL) :
    exceptOk (read_plastic_hardening pl) = true →
    ∃ pr, read_plastic_hardening pl = Except.ok (pr, hardeningOfPL pl) := by
  unfold read_plastic_hardening hardeningOfPL
  cases hh : pl.hardening with
  | none => intro _; exact ⟨_, rfl⟩
  | some model =>
    intro hok
    dsimp only at hok ⊢
    split_ifs with h1 h2 h3 h4
    · exact ⟨_, rfl⟩
    · exact ⟨_, rfl⟩
    · exact ⟨_, rfl⟩
    · exact ⟨_, rfl⟩
    · rw [if_neg h1, if_neg h2, if_neg h3, if_neg h4] at hok
      simp [exceptOk] at hok

theorem rate_ok_iff (pl : PlasticPL) (hp : List ℚ × Hardening) :
    exceptOk (read_plastic_rate pl hp) = true ↔
      (match pl.rate with
       | none => True
       | some rp =>
         (rp.type.getD "None" = "johnson cook" → hp.2 = Hardening.JOHNSON_COOK) ∧
         (rp.type.getD "None" = "zerilli armstrong" → hp.2 = Hardening.ZERILLI_ARMSTRONG) ∧
         (rp.type.getD "None" = "johnson cook" ∨ rp.type.getD "None" = "zerilli armstrong" ∨
          rp.type.getD "None" = "None")) := by
  unfold read_plastic_rate
  cases hr : pl.rate with
  | none => simp [hr, exceptOk]
  | some rp =>
    simp only [hr]
    split_ifs <;> simp_all [exceptOk]

theorem plastic_ok_iff (p : ParamList) :
    exceptOk (read_and_validate_plastic_params p) = true ↔
      (match p.plastic with
       | none => True
       | some pl =>
         (match pl.hardening with
          | none => True
          | some model => model = "linear isotropic" ∨ model = "power law" ∨
              model = "zerilli armstrong" ∨ model = "johnson cook") ∧
         (match pl.rate with
          | none => True
          | some rp =>
            (rp.type.getD "None" = "johnson cook" →
              hardeningOfPL pl = Hardening.JOHNSON_COOK) ∧
            (rp.type.getD "None" = "zerilli armstrong" →
              hardeningOfPL pl = Hardening.ZERILLI_ARMSTRONG) ∧
            (rp.type.getD "None" = "johnson cook" ∨
              rp.type.getD "None" = "zerilli armstrong" ∨
              rp.type.getD "None" = "None"))) := by
  unfold read_and_validate_plastic_params
  cases hP : p.plastic with
  | none => simp [exceptOk]
  | some pl =>
    cases hok : exceptOk (read_plastic_hardening pl) with
    | false =>
      rcases hstep : read_plastic_hardening pl with msg | v
      · have hnames : ¬ (match pl.hardening with
            | none => True
            | some model => model = "linear isotropic" ∨ model = "power law" ∨
                model = "zerilli armstrong" ∨ model = "johnson cook") := by
          rw [← hardening_ok_iff pl]
          rw [hstep]
          simp [exceptOk]
        simp [Except.bind, Bind.bind, hstep, exceptOk, hnames]
      · rw [hstep] at hok
        simp [exceptOk] at hok
    | true =>
      obtain ⟨pr, hpr⟩ := hardening_snd pl hok
      have hnames := (hardening_ok_iff pl).mp hok
      simp [Except.bind, Bind.bind, hpr, rate_ok_iff, hnames]

/-- C9 (amended): property construction rejects exactly: a missing elastic
sublist, an unrecognized hyperelastic name, a missing `E`, `E <= 0`, a missing
`Nu`, `Nu <= -1` or `Nu >= 0.5`, an unrecognized hardening name, a
`johnson cook` rate type without JC hardening, a `zerilli armstrong` rate type
without ZA hardening, or an unrecognized rate type (`validOk` states the exact
complement).  The claim's `DC`/`eps_f_min` checks do not exist: the code has no
damage parameters. -/
theorem C9_validation_characterization (p : ParamList) :
    exceptOk (validate_params p) = true ↔ validOk p := by
  rw [validate_split, Bool.and_eq_true, elastic_ok_iff, plastic_ok_iff]
  unfold validOk
  cases hE : p.elastic with
  | none => simp
  | some el => cases hP : p.plastic <;> simp_all [and_assoc]


/-- C9 witness: the characterization applied to a fully valid parameter list
(`E = 1`, `Nu = 0`, no plastic sublist), which validation accepts. -/
theorem C9_validation_characterization_witness :
    exceptOk (validate_params pGood) = true := by
  rw [C9_validation_characterization]
  unfold validOk pGood
  refine ⟨trivial, by norm_num, by norm_num, trivial⟩

/-- C9 counterexample: the parameter list `pFoo` has `E = 1 > 0`,
`-1 < Nu = 0 < 0.5`, no rate dependence, no damage - it violates none of the
conditions the claim says are rejected (formalized by `claimedReject`) - yet
property construction rejects it, because its hardening name "foo" is
unrecognized: the claimed rejection set is not exact. -/
theorem C9_validation_counterexample :
    exceptOk (validate_params pFoo) = false ∧
    ¬ claimedReject 1 0 Hardening.NONE RateDependence.NONE false 1 0 := by
  constructor
  · decide
  · unfold claimedReject
    decide

end HyperEP
